import Mathlib

/-!
Verification of the brand-voice analysis pipeline of the ContentPlatform
repository.

The repository ships two parallel implementations of the pipeline:

* `backend/app/agents/brand_voice_analysis/` — class-based LangGraph nodes
  (`ContentAnalyzerNode`, `EvidenceCollectorNode`, `ScoreCalculatorNode`,
  `SuggestionGeneratorNode`, `AnalysisReportNode`), entry point
  `invoke_analysis_agent`; embedded below in namespace `BVAnalysis`.
* `backend/app/agents/brand_voice_analyzer/` — function-based nodes
  (`parse_issues`, `calculate_severity`, `parse_scores`,
  `generate_suggestions`, ...); embedded below in namespace `BVAnalyzer`.

Modelling conventions:

* Python `str` is modelled as `String`, with line-by-line processing done on
  `List Char` (`String.data`).  `str.strip`, `str.lower`, `str.split`,
  substring tests (`in`), `str.find`, `str.replace` are reimplemented
  faithfully for the ASCII fragment; Unicode-specific behaviour of Python's
  `str.lower`/`str.strip` is not modelled.
* Python `float` arithmetic is idealised as exact rational arithmetic (`ℚ`).
  Numeric literals accepted by `float(...)` are modelled by the grammar
  `digits [. digits*] [(e|E) [+|-] digits]`; underscore grouping and the
  non-finite literals (`inf`, `nan`) are not modelled (none can reach the
  call sites: every call site first checks that the token starts with a
  digit, and the claims only involve plain decimal tokens).
* Python `dict[str, float]` is modelled as an insertion-ordered association
  list (`ScoreDict`) with Python's assignment semantics (update in place if
  the key exists, append otherwise).
* LLM calls (`llm.invoke`/`llm.ainvoke`) are modelled as an oracle of type
  `Except String String`: `.ok r` is a response with text `r`, `.error e`
  is a raised exception with message `e`.  Prompt construction is pure
  string formatting whose output only feeds the oracle, so it is absorbed
  into the oracle argument.
* `uuid.uuid4()` ids and `uuid.uuid1()` timestamps are fresh random
  identifiers; id fields are modelled as the constant `""` and timestamps
  are omitted.  The `messages` debug log threaded through the nodes is not
  modelled; no claim mentions it.
-/

/- Core `Rat` arithmetic is `@[irreducible]`, which blocks `decide`/`rfl`
evaluation of the embedded parsers on concrete inputs; restore the default
reducibility (kernel-safe: reducibility attributes are elaborator hints). -/
set_option allowUnsafeReducibility true in
attribute [semireducible] Rat.add Rat.mul Rat.sub Rat.div Rat.inv

/-! ## Python string primitives on `List Char` -/

/-- The six ASCII whitespace characters stripped by Python's `str.strip()` /
split on by `str.split()`. -/
def isPySpace (c : Char) : Bool :=
  c == ' ' || c == '\t' || c == '\n' || c == '\r' || c == '\x0b' || c == '\x0c'

/-- Python `str.strip()` (ASCII whitespace). -/
def pyStrip (l : List Char) : List Char :=
  ((l.dropWhile isPySpace).reverse.dropWhile isPySpace).reverse

/-- ASCII `str.lower()` on one character. -/
def pyLowerChar (c : Char) : Char :=
  if 'A' ≤ c ∧ c ≤ 'Z' then Char.ofNat (c.toNat + 32) else c

/-- ASCII `str.lower()`. -/
def pyLower (l : List Char) : List Char := l.map pyLowerChar

/-- `needle` is a prefix of `hay` (`str.startswith`). -/
def isPrefixCL : List Char → List Char → Bool
  | [], _ => true
  | _ :: _, [] => false
  | a :: as, b :: bs => a == b && isPrefixCL as bs

/-- Python's substring test `needle in hay`. -/
def containsCL (needle : List Char) : List Char → Bool
  | [] => isPrefixCL needle []
  | c :: cs => isPrefixCL needle (c :: cs) || containsCL needle cs

/-- Index of the first occurrence of `needle` in `hay`, if any. -/
def indexOfCL (needle : List Char) : List Char → Option Nat
  | [] => if isPrefixCL needle [] then some 0 else none
  | c :: cs =>
    if isPrefixCL needle (c :: cs) then some 0
    else (indexOfCL needle cs).map (· + 1)

/-- Python `content.find(text)`: index of the first occurrence, `-1` if none. -/
def pyFind (hay needle : List Char) : Int :=
  match indexOfCL needle hay with
  | some n => (n : Int)
  | none => -1

/-- The tail after the first occurrence of `needle`, i.e.
`s.split(needle, 1)[1]` when `needle` occurs in `s` (`none` models the
`IndexError` raised by `[1]` when it does not). -/
def afterFirstCL (needle : List Char) : List Char → Option (List Char)
  | [] => if isPrefixCL needle [] then some [] else none
  | c :: cs =>
    if isPrefixCL needle (c :: cs) then some ((c :: cs).drop needle.length)
    else afterFirstCL needle cs

/-- Python `str.split(sep)` for a one-character separator (no maxsplit):
`"".split(sep) = [""]`. -/
def splitCharGo (sep : Char) : List Char → List Char → List (List Char)
  | [], tok => [tok.reverse]
  | c :: cs, tok =>
    if c == sep then tok.reverse :: splitCharGo sep cs []
    else splitCharGo sep cs (c :: tok)

def splitChar (sep : Char) (l : List Char) : List (List Char) :=
  splitCharGo sep l []

/-- Python `str.split()` (no argument): split on whitespace runs, no empty
tokens. -/
def splitWSGo : List Char → List Char → List (List Char)
  | [], tok => if tok.isEmpty then [] else [tok.reverse]
  | c :: cs, tok =>
    if isPySpace c then
      if tok.isEmpty then splitWSGo cs [] else tok.reverse :: splitWSGo cs []
    else splitWSGo cs (c :: tok)

def splitWS (l : List Char) : List (List Char) := splitWSGo l []

/-- Fuel-driven worker for `removeAllCL` (structural recursion on the
fuel keeps the definition kernel-reducible; a fuel of `src.length`
suffices since every step consumes at least one character). -/
def removeAllFuel (needle : List Char) : Nat → List Char → List Char
  | _, [] => []
  | 0, src => src
  | fuel + 1, c :: cs =>
    if needle ≠ [] ∧ isPrefixCL needle (c :: cs) = true then
      removeAllFuel needle fuel (cs.drop (needle.length - 1))
    else c :: removeAllFuel needle fuel cs

/-- Python `str.replace(needle, "")` (left-to-right, non-overlapping). -/
def removeAllCL (needle src : List Char) : List Char :=
  removeAllFuel needle src.length src

/-! ## Python numeric literals as exact rationals -/

def digitsToNat (l : List Char) : Nat :=
  l.foldl (fun acc c => 10 * acc + (c.toNat - '0'.toNat)) 0

/-- Value of the grammar `digits+ ['.' digits*] [('e'|'E') ['+'|'-'] digits+]`,
i.e. the decimal literals `float(...)` accepts at the guarded call sites
(every caller first checks the token starts with a digit).  `none` models a
raised `ValueError`. -/
def pyFloat? (l : List Char) : Option ℚ :=
  let intPart := l.takeWhile Char.isDigit
  if intPart.isEmpty then none else
  let rest := l.drop intPart.length
  let (fracPart, rest2) :=
    match rest with
    | '.' :: r => (r.takeWhile Char.isDigit, (r.drop (r.takeWhile Char.isDigit).length))
    | _ => ([], rest)
  let mantissa : ℚ :=
    (digitsToNat intPart : ℚ) + (digitsToNat fracPart : ℚ) / (10 ^ fracPart.length : ℚ)
  match rest2 with
  | [] => some mantissa
  | 'e' :: r => pyFloatExp? mantissa r
  | 'E' :: r => pyFloatExp? mantissa r
  | _ => none
where
  pyFloatExp? (m : ℚ) (r : List Char) : Option ℚ :=
    let (sign, ds) :=
      match r with
      | '+' :: t => ((1 : Int), t)
      | '-' :: t => ((-1 : Int), t)
      | t => ((1 : Int), t)
    if ds.isEmpty ∨ ¬ ds.all Char.isDigit then none
    else some (m * (10 : ℚ) ^ (sign * (digitsToNat ds : Int)))

/-! ## Insertion-ordered dictionaries (`dict[str, float]`) -/

/-- A Python `dict` with string keys, as an insertion-ordered association
list. -/
abbrev ScoreDict := List (String × ℚ)

def dictMem {β : Type} (k : String) (d : List (String × β)) : Bool :=
  d.any (fun p => p.1 == k)

def dictGet {β : Type} (d : List (String × β)) (k : String) : Option β :=
  (d.find? (fun p => p.1 == k)).map (·.2)

/-- Python `d[k] = v`: update in place if present, else append. -/
def dictSet {β : Type} (d : List (String × β)) (k : String) (v : β) : List (String × β) :=
  if dictMem k d then
    d.map (fun p => if p.1 == k then (k, v) else p)
  else d ++ [(k, v)]

def dictKeys {β : Type} (d : List (String × β)) : List String := d.map (·.1)

def dictValues {β : Type} (d : List (String × β)) : List β := d.map (·.2)

/-- `sum(d.values()) / len(d)`. -/
def dictMean (d : ScoreDict) : ℚ :=
  (dictValues d).sum / ((dictValues d).length : ℚ)

/-! ## Misc Python helpers -/

/-- Python `l[:k]` for an `int` bound `k` (negative bounds count from the
end). -/
def pySliceTake (k : Int) (l : List α) : List α :=
  if 0 ≤ k then l.take k.toNat else l.take (l.length - (-k).toNat)

/-- Stable insertion used by ascending `list.sort(key=...)`: an element is
placed after all existing elements whose key is `≤` its own. -/
def insertAscBy (key : α → ℚ) (x : α) : List α → List α
  | [] => [x]
  | y :: ys => if key x < key y then x :: y :: ys else y :: insertAscBy key x ys

/-- Python's stable `sorted(l, key=key)` (ascending). -/
def pySortAscBy (key : α → ℚ) (l : List α) : List α :=
  l.foldl (fun acc x => insertAscBy key x acc) []

/-- Stable insertion for `sorted(l, key=..., reverse=True)`. -/
def insertDescBy (key : α → ℚ) (x : α) : List α → List α
  | [] => [x]
  | y :: ys => if key x > key y then x :: y :: ys else y :: insertDescBy key x ys

/-- Python's stable `sorted(l, key=key, reverse=True)` (descending). -/
def pySortDescBy (key : α → ℚ) (l : List α) : List α :=
  l.foldl (fun acc x => insertDescBy key x acc) []

/-- The apostrophe character, used by the score-key literals `"don'ts"`. -/
def apos : Char := Char.ofNat 39

/-- The string `don` + apostrophe + `ts` (the Python literal for the
don'ts score key before `.replace`). -/
def dontsApos : String := "don" ++ String.mk [apos] ++ "ts"

/-- The string `don` + apostrophe + `t` (Python literal). -/
def dontApos : String := "don" ++ String.mk [apos] ++ "t"

/-- `min(1.0, max(0.0, x))`: the clamp applied to every parsed score
(`nodes.py`, both variants). -/
def clamp01 (x : ℚ) : ℚ := min 1 (max 0 x)

/-- Score-scale normalisation shared verbatim by
`brand_voice_analysis/nodes.py` lines 402-409 and
`brand_voice_analyzer/nodes.py` lines 415-421: values in `(1, 10]` are a
0-10 scale, values in `(10, 100]` a percentage, and the result is clamped
to `[0, 1]`. -/
def normalize_score_value (x : ℚ) : ℚ :=
  let y := if 1 < x ∧ x ≤ 10 then x / 10
           else if 10 < x ∧ x ≤ 100 then x / 100
           else x
  clamp01 y

/-! ## Shared enums (both `state.py` files define identical enums) -/

inductive IssueType
  | personality_mismatch | tonality_mismatch | dos_violation
  | donts_violation | style_inconsistency | general
deriving DecidableEq, Repr

inductive SuggestionCategory
  | personality | tonality | dos | donts | style | general
deriving DecidableEq, Repr

/-- The analysis options dict.  `options.get(key, default)` lookups are
modelled as total field accesses holding the post-default value (the entry
points and routes always construct all five keys). -/
structure AnalysisOptions where
  analysis_depth : String
  include_suggestions : Bool
  highlight_issues : Bool
  max_suggestions : Int
  generate_report : Bool
deriving DecidableEq, Repr

/-! ## The function-based variant: `backend/app/agents/brand_voice_analyzer/nodes.py` -/

namespace BVAnalyzer

/-- An issue dict as built by `parse_issues` (`nodes.py` lines 112-120).
The `id` field is `uuid.uuid4()` in the source; uuids are fresh random
identifiers and are modelled by the constant `""`. -/
structure Issue where
  id : String
  start_index : Int
  end_index : Int
  text : String
  issue_type : IssueType
  explanation : String
  severity : ℚ
deriving DecidableEq, Repr

/-- A suggestion dict as built by `parse_suggestions` (lines 531-538);
`id` modelled as `""` (uuid), `issue_id` is the back-reference set by the
linking pass (lines 585-590). -/
structure Suggestion where
  original_text : String
  suggested_text : String
  explanation : String
  category : SuggestionCategory
  priority : Int
  issue_id : Option String
deriving DecidableEq, Repr

/-- `determine_issue_type` (`nodes.py` lines 138-153). -/
def determine_issue_type (line : List Char) : IssueType :=
  let l := pyLower line
  if containsCL "personality".data l then .personality_mismatch
  else if containsCL "tone".data l ∨ containsCL "tonality".data l then .tonality_mismatch
  else if containsCL "do ".data l ∨ containsCL "dos".data l then .dos_violation
  else if containsCL dontApos.data l ∨ containsCL "dont".data l ∨ containsCL "donts".data l then .donts_violation
  else if containsCL "style".data l ∨ containsCL "format".data l then .style_inconsistency
  else .general

/-- One parsed-issue record under construction. -/
def newIssue (line : List Char) : Issue :=
  let text :=
    if containsCL ":".data line then
      pyStrip ((afterFirstCL ":".data line).getD [])
    else line
  { id := "", start_index := 0, end_index := 0, text := String.mk text,
    issue_type := determine_issue_type line, explanation := "", severity := 1/2 }

/-- Non-marker update of an open issue (`nodes.py` lines 121-129): an
`explanation:` line sets the explanation, any other line extends it. -/
def updateIssue (line : List Char) (i : Issue) : Issue :=
  let low := pyLower line
  if containsCL "explanation:".data low then
    let expl :=
      if containsCL ":".data line then
        pyStrip ((afterFirstCL ":".data line).getD [])
      else line
    { i with explanation := String.mk expl }
  else
    let expl :=
      if i.explanation ≠ "" then i.explanation ++ " " ++ String.mk line
      else String.mk line
    { i with explanation := expl }

/-- Loop body of `parse_issues` (`nodes.py` lines 99-133); flushes are
unconditional in this variant. -/
def parse_issues_go : List (List Char) → List Issue → Option Issue → List Issue
  | [], acc, cur => acc ++ (match cur with | some i => [i] | none => [])
  | l :: ls, acc, cur =>
    let line := pyStrip l
    if line.isEmpty then parse_issues_go ls acc cur
    else
      let low := pyLower line
      if isPrefixCL "issue:".data low ∨ isPrefixCL "problem:".data low ∨
         isPrefixCL "mismatch:".data low ∨ isPrefixCL "violation:".data low then
        parse_issues_go ls (acc ++ (match cur with | some i => [i] | none => [])) (some (newIssue line))
      else
        match cur with
        | none => parse_issues_go ls acc none
        | some i => parse_issues_go ls acc (some (updateIssue line i))

/-- `parse_issues` (`nodes.py` lines 91-135): scan the response line by
line; marker lines open a new issue (flushing any open one,
unconditionally), `explanation:` lines set the explanation, any other
line extends it; the last open issue is flushed unconditionally. -/
def parse_issues (response_text : String) : List Issue :=
  parse_issues_go (splitChar '\n' response_text.data) [] none

/-- The strong-intensity vocabulary of `calculate_severity` (line 286). -/
def strong_words : List String :=
  ["completely", "severely", "extremely", "totally", "very", "significant", "major"]

/-- The medium-attenuation vocabulary of `calculate_severity` (line 287). -/
def medium_words : List String :=
  ["somewhat", "partially", "slightly", "minor", "a bit"]

/-- Number of `(evidence line, vocabulary word)` pairs such that the word
occurs in the lowered line — the counting performed by the nested loops of
`calculate_severity` (lines 292-299). -/
def countWordHits (words : List String) (evidence : List String) : Nat :=
  (evidence.map (fun item =>
    (words.filter (fun w => containsCL w.data (pyLower item.data))).length)).sum

/-- `calculate_severity` (`nodes.py` lines 279-309): base 0.5, +0.1 per
strong-word hit, −0.05 per medium-word hit, clamped to `[0.1, 0.9]`;
empty evidence returns 0.5 directly. -/
def calculate_severity (evidence : List String) : ℚ :=
  if evidence.isEmpty then 1/2
  else
    let severity := 1/2 + (1/10) * (countWordHits strong_words evidence : ℚ)
                        - (1/20) * (countWordHits medium_words evidence : ℚ)
    max (1/10) (min (9/10) severity)

/-- `find_text_position` (`nodes.py` lines 271-276). -/
def find_text_position (content text : String) : Int × Int :=
  let start := pyFind content.data text.data
  if start ≥ 0 then (start, start + text.length) else (0, 0)

/-- The regex `0\.\d+|\d+\.\d+|\d+` tried at one position (alternatives in
order, each greedy). -/
def matchNumberAt (l : List Char) : Option (List Char) :=
  let alt1 :=
    match l with
    | '0' :: '.' :: rest =>
      let ds := rest.takeWhile Char.isDigit
      if ds.isEmpty then none else some ('0' :: '.' :: ds)
    | _ => none
  let alt2 :=
    let d1 := l.takeWhile Char.isDigit
    if d1.isEmpty then none
    else
      match l.drop d1.length with
      | '.' :: rest =>
        let d2 := rest.takeWhile Char.isDigit
        if d2.isEmpty then none else some (d1 ++ '.' :: d2)
      | _ => none
  let alt3 :=
    let d := l.takeWhile Char.isDigit
    if d.isEmpty then none else some d
  alt1 <|> alt2 <|> alt3

/-- Leftmost match of `re.findall(r"0\.\d+|\d+\.\d+|\d+", ...)`, i.e.
`numbers[0]` (`nodes.py` line 411). -/
def firstNumberCL : List Char → Option (List Char)
  | [] => none
  | c :: cs => matchNumberAt (c :: cs) <|> firstNumberCL cs

/-- Key-to-score mapping of `parse_scores` (lines 424-433).  Note the
`"do" in key and "s" in key` test matches `don'ts` as well (the guard
comment in the source notwithstanding), so don'ts-styled keys update the
`dos` entry. -/
def assignScore (d : ScoreDict) (key : List Char) (v : ℚ) : ScoreDict :=
  if containsCL "overall".data key then dictSet d "overall" v
  else if containsCL "personality".data key then dictSet d "personality" v
  else if containsCL "tone".data key ∨ containsCL "tonality".data key then dictSet d "tonality" v
  else if containsCL "do".data key ∧ containsCL "s".data key then dictSet d "dos" v
  else if containsCL "don".data key then dictSet d "donts" v
  else d

/-- Per-line body of `parse_scores` (`nodes.py` lines 396-435). -/
def parse_scores_line (d : ScoreDict) (l : List Char) : ScoreDict :=
  let line := pyStrip l
  if line.isEmpty then d
  else if containsCL ":".data line then
    let key := pyLower (pyStrip (line.takeWhile (· ≠ ':')))
    let value_part := pyStrip ((afterFirstCL ":".data line).getD [])
    match firstNumberCL value_part with
    | none => d
    | some tok =>
      match pyFloat? tok with
      | none => d
      | some v => assignScore d key (normalize_score_value v)
  else d

/-- `parse_scores` (`nodes.py` lines 383-437): all five keys preset to
0.5, then per-line extraction of the first numeric token after a colon,
scale-normalised, clamped, and assigned by key-substring matching. -/
def parse_scores (response_text : String) : ScoreDict :=
  (splitChar '\n' response_text.data).foldl parse_scores_line
    [("overall", 1/2), ("personality", 1/2), ("tonality", 1/2), ("dos", 1/2), ("donts", 1/2)]

end BVAnalyzer

namespace BVAnalyzer

/-- A fresh suggestion record (`parse_suggestions` lines 531-538). -/
def newSuggestion : Suggestion :=
  { original_text := "", suggested_text := "", explanation := "",
    category := .general, priority := 2, issue_id := none }

/-- The numbered markers `"1."` .. `"10."` (line 525). -/
def isNumberedMarker (line : List Char) : Bool :=
  (List.range 10).any (fun i => isPrefixCL (toString (i + 1) ++ ".").data line)

/-- Loop body of `parse_suggestions` (`nodes.py` lines 519-582).  The flush
guard `"original_text" in current_suggestion and "suggested_text" in
current_suggestion` tests key *presence*, which always holds, so every
opened suggestion is flushed. -/
def parse_suggestions_go :
    List (List Char) → List Suggestion → Option Suggestion → List Suggestion
  | [], acc, cur => acc ++ (match cur with | some s => [s] | none => [])
  | l :: ls, acc, cur =>
    let line := pyStrip l
    if line.isEmpty then parse_suggestions_go ls acc cur
    else
      let low := pyLower line
      if isNumberedMarker line ∨ isPrefixCL "suggestion:".data low then
        let acc1 := acc ++ (match cur with | some s => [s] | none => [])
        let title :=
          if containsCL ":".data line then
            pyStrip ((afterFirstCL ":".data line).getD [])
          else []
        let fresh :=
          if title ≠ [] then { newSuggestion with explanation := String.mk title }
          else newSuggestion
        parse_suggestions_go ls acc1 (some fresh)
      else
        match cur with
        | none => parse_suggestions_go ls acc none
        | some s =>
          let after :=
            if containsCL ":".data line then
              String.mk (pyStrip ((afterFirstCL ":".data line).getD []))
            else ""
          if isPrefixCL "original:".data low then
            parse_suggestions_go ls acc (some { s with original_text := after })
          else if isPrefixCL "suggested:".data low ∨ isPrefixCL "replacement:".data low ∨
                  isPrefixCL "new:".data low then
            parse_suggestions_go ls acc (some { s with suggested_text := after })
          else if isPrefixCL "explanation:".data low then
            parse_suggestions_go ls acc (some { s with explanation := after })
          else if isPrefixCL "category:".data low then
            let category_text := pyLower after.data
            let cat :=
              if containsCL "personality".data category_text then SuggestionCategory.personality
              else if containsCL "tone".data category_text ∨ containsCL "tonality".data category_text then .tonality
              else if containsCL "do".data category_text ∧ containsCL "s".data category_text ∧
                      ¬ containsCL ("n" ++ String.mk [apos] ++ "t").data category_text then .dos
              else if containsCL dontApos.data category_text ∨ containsCL "dont".data category_text then .donts
              else if containsCL "style".data category_text then .style
              else s.category
            parse_suggestions_go ls acc (some { s with category := cat })
          else if isPrefixCL "priority:".data low then
            let pt := pyLower after.data
            let p : Int :=
              if containsCL "high".data pt ∨ containsCL "1".data pt then 1
              else if containsCL "medium".data pt ∨ containsCL "2".data pt then 2
              else if containsCL "low".data pt ∨ containsCL "3".data pt then 3
              else s.priority
            parse_suggestions_go ls acc (some { s with priority := p })
          else if s.explanation = "" then
            parse_suggestions_go ls acc (some { s with explanation := String.mk line })
          else parse_suggestions_go ls acc (some s)

/-- The post-parse linking pass (`parse_suggestions` lines 584-590): the
first issue whose text contains the suggestion's (non-empty) original text
donates its id. -/
def linkSuggestion (issues : List Issue) (s : Suggestion) : Suggestion :=
  match issues.find? (fun i =>
      s.original_text ≠ "" ∧ containsCL s.original_text.data i.text.data) with
  | some i => { s with issue_id := some i.id }
  | none => s

/-- `parse_suggestions` (`nodes.py` lines 511-592). -/
def parse_suggestions (response_text : String) (issues : List Issue) : List Suggestion :=
  (parse_suggestions_go (splitChar '\n' response_text.data) [] none).map
    (linkSuggestion issues)

/-- The workflow state dict of the analyzer variant, restricted to the
fields `generate_suggestions` reads or writes. -/
structure AState where
  content : String
  options : AnalysisOptions
  issues : Option (List Issue)
  suggestions : Option (List Suggestion)
  analysis_stage : String
  error : Option String
deriving DecidableEq, Repr

/-- `generate_suggestions` (`nodes.py` lines 440-508): skip when no issues
or suggestions are disabled; otherwise only the issues fed to the prompt
are capped at `max_suggestions` (descending severity) — the parsed
suggestion list itself is stored uncapped. -/
def generate_suggestions (oracle : Except String String) (st : AState) : AState :=
  let issues := st.issues.getD []
  if issues.isEmpty ∨ st.options.include_suggestions = false then
    { st with suggestions := some [], analysis_stage := "suggestions_generated" }
  else
    let issues_to_process :=
      pySliceTake st.options.max_suggestions (pySortDescBy (·.severity) issues)
    match oracle with
    | .error e => { st with error := some ("Error in suggestion generator: " ++ e) }
    | .ok resp =>
      { st with suggestions := some (parse_suggestions resp issues_to_process),
                analysis_stage := "suggestions_generated" }

end BVAnalyzer

/-! ## The class-based variant: `backend/app/agents/brand_voice_analysis/` -/

namespace BVAnalysis

/-- `ContentIssue` (`state.py` lines 37-44); issues circulate as
`issue.dict()` dictionaries once stored in the state. -/
structure ContentIssue where
  start_index : Int
  end_index : Int
  text : String
  issue_type : IssueType
  explanation : String
  severity : ℚ
deriving DecidableEq, Repr

/-- `ContentSuggestion` (`state.py` lines 47-54); the `id` field is
`uuid.uuid4()` and is omitted (fresh random identifier, inspected by no
claim). -/
structure ContentSuggestion where
  original_text : String
  suggested_text : String
  explanation : String
  category : SuggestionCategory
  priority : Int
deriving DecidableEq, Repr

/-- The brand-voice record, with the `voice_metadata` sub-dict flattened
into `personality`/`tonality`.  All `.get(..., default)` accesses are
modelled as total fields holding the post-default value. -/
structure BrandVoice where
  id : String
  name : String
  personality : String
  tonality : String
  dos : String
  donts : String
deriving DecidableEq, Repr

/-- `analysis_metadata` of the analysis result (`nodes.py` lines 602-609);
the `uuid.uuid1()` timestamp is omitted. -/
structure AnalysisMetadata where
  brand_voice_id : String
  brand_voice_name : String
  content_length : Nat
  issue_count : Nat
  suggestion_count : Nat
deriving DecidableEq, Repr

/-- The `analysis_result` dict built by `AnalysisReportNode` (`nodes.py`
lines 594-621). -/
structure AnalysisResult where
  overall_score : ℚ
  personality_score : ℚ
  tonality_score : ℚ
  dos_alignment : ℚ
  donts_alignment : ℚ
  highlighted_sections : List ContentIssue
  suggestions : List ContentSuggestion
  analysis_metadata : AnalysisMetadata
  report : Option String
deriving DecidableEq, Repr

/-- `BrandVoiceAnalysisState` (`state.py` lines 65-87); `total=False`
TypedDict keys that a stage may leave unset are `Option`s (`none` models
an absent key). -/
structure AnalysisState where
  content : String
  brand_voice : BrandVoice
  options : AnalysisOptions
  user_id : String
  tenant_id : String
  analysis_stage : String
  issues : Option (List ContentIssue)
  suggestions : Option (List ContentSuggestion)
  scores : Option ScoreDict
  evidence : Option (List (String × List String))
  analysis_result : Option AnalysisResult
  error : Option String
deriving DecidableEq, Repr

/-- `ContentAnalyzerNode._determine_issue_type` (`nodes.py` lines
134-149). -/
def determine_issue_type (line : List Char) : IssueType :=
  let l := pyLower line
  if containsCL "personality".data l then .personality_mismatch
  else if containsCL "tone".data l ∨ containsCL "tonality".data l then .tonality_mismatch
  else if containsCL "do".data l ∧ containsCL "not".data l then .donts_violation
  else if containsCL "do".data l then .dos_violation
  else if containsCL "style".data l then .style_inconsistency
  else .general

/-- A freshly opened issue (`nodes.py` lines 109-116): empty text, type
derived from the marker line, default severity 0.5. -/
def newIssue (line : List Char) : ContentIssue :=
  { start_index := 0, end_index := 0, text := "",
    issue_type := determine_issue_type line, explanation := "", severity := 1/2 }

/-- The field-update block of `_parse_issues` (`nodes.py` lines 118-126),
run for every non-empty line while an issue is open (marker lines
included — the block is a separate `if current_issue:`, not an `elif`):
`text:` and `explanation:` lines set the respective field (raising
`IndexError` when the label appears only in mixed case), and a free line
becomes the explanation once text is set. -/
def updateIssue (line : List Char) (i : ContentIssue) :
    Except String ContentIssue :=
  let low := pyLower line
  if containsCL "text:".data low then
    match afterFirstCL "text:".data line with
    | some rest => .ok { i with text := String.mk (pyStrip rest) }
    | none => .error "list index out of range"
  else if containsCL "explanation:".data low then
    match afterFirstCL "explanation:".data line with
    | some rest => .ok { i with explanation := String.mk (pyStrip rest) }
    | none => .error "list index out of range"
  else if i.explanation = "" ∧ i.text ≠ "" then
    .ok { i with explanation := String.mk line }
  else .ok i

/-- End-of-input flush of `_parse_issues` (lines 129-130): the last open
issue is appended only when its text is non-empty. -/
def flushIssue (cur : Option ContentIssue) : List ContentIssue :=
  match cur with
  | some i => if i.text ≠ "" then [i] else []
  | none => []

/-- Loop body of `ContentAnalyzerNode._parse_issues` (`nodes.py` lines
94-132).  The mid-scan flush performed on a marker line appends the open
issue *without* a text check; only the end-of-input flush requires
non-empty text. -/
def parse_issues_go :
    List (List Char) → List ContentIssue → Option ContentIssue →
    Except String (List ContentIssue)
  | [], acc, cur => .ok (acc ++ flushIssue cur)
  | l :: ls, acc, cur =>
    let line := pyStrip l
    if line.isEmpty then parse_issues_go ls acc cur
    else
      let low := pyLower line
      if isPrefixCL "issue:".data low ∨ isPrefixCL "problem:".data low ∨
         isPrefixCL "mismatch:".data low ∨ isPrefixCL "violation:".data low then
        match updateIssue line (newIssue line) with
        | .ok i' => parse_issues_go ls (acc ++ cur.toList) (some i')
        | .error e => .error e
      else
        match cur with
        | none => parse_issues_go ls acc none
        | some i =>
          match updateIssue line i with
          | .ok i' => parse_issues_go ls acc (some i')
          | .error e => .error e

/-- `ContentAnalyzerNode._parse_issues` (`nodes.py` lines 89-132). -/
def parse_issues (response_text : String) : Except String (List ContentIssue) :=
  parse_issues_go (splitChar '\n' response_text.data) [] none

/-- A line of a marker of `_parse_issues` (after stripping). -/
def isIssueMarker (l : List Char) : Bool :=
  let low := pyLower (pyStrip l)
  isPrefixCL "issue:".data low || isPrefixCL "problem:".data low ||
  isPrefixCL "mismatch:".data low || isPrefixCL "violation:".data low

/-- Number of issue-marker lines in a response. -/
def markerCount (response_text : String) : Nat :=
  ((splitChar '\n' response_text.data).filter isIssueMarker).length

end BVAnalysis

namespace BVAnalysis

/-- Save step of `_extract_evidence` (`nodes.py` lines 249-250 and
264-265): the accumulated evidence is stored under the current key only
when both are non-trivial. -/
def saveEvidence (ev : List (String × List String)) :
    Option String → List String → List (String × List String)
  | some k, curEv => if curEv ≠ [] then dictSet ev k curEv else ev
  | none, _ => ev

/-- Loop body of `EvidenceCollectorNode._extract_evidence` (`nodes.py`
lines 241-261).  On a line starting with `issue`/`evidence for issue` the
current evidence is saved and the first issue index `i` with
`issue {i+1}`/`issue #{i+1}` occurring in the lowered line becomes
current; other lines are appended unless they start with
`issue`/`evidence`. -/
def extract_evidence_go (n : Nat) :
    List (List Char) → List (String × List String) → Option String → List String →
    List (String × List String)
  | [], ev, cur, curEv => saveEvidence ev cur curEv
  | l :: ls, ev, cur, curEv =>
    let line := pyStrip l
    if line.isEmpty then extract_evidence_go n ls ev cur curEv
    else
      let low := pyLower line
      if isPrefixCL "issue".data low ∨ isPrefixCL "evidence for issue".data low then
        let ev1 := saveEvidence ev cur curEv
        match (List.range n).find? (fun i =>
            containsCL ("issue " ++ toString (i+1)).data low ∨
            containsCL ("issue #" ++ toString (i+1)).data low) with
        | some i => extract_evidence_go n ls ev1 (some ("issue_" ++ toString (i+1))) []
        | none => extract_evidence_go n ls ev1 cur curEv
      else if cur.isSome ∧ ¬ (isPrefixCL "issue".data low ∨ isPrefixCL "evidence".data low) then
        extract_evidence_go n ls ev cur (curEv ++ [String.mk line])
      else extract_evidence_go n ls ev cur curEv

/-- `EvidenceCollectorNode._extract_evidence` (`nodes.py` lines 232-267);
the `content` argument is accepted and unused, as in the source. -/
def extract_evidence (response_text : String) (issueCount : Nat) (_content : String) :
    List (String × List String) :=
  extract_evidence_go issueCount (splitChar '\n' response_text.data) [] none []

/-- `EvidenceCollectorNode._find_text_position` (`nodes.py` lines
269-271): plain `content.find(text)`. -/
def find_text_position (content text : String) : Int :=
  pyFind content.data text.data

/-- The `severity_indicators` table of `_calculate_severity` (`nodes.py`
lines 276-284), in dict insertion order. -/
def severity_indicators : List (String × ℚ) :=
  [("critical", 1), ("major", 4/5), ("significant", 7/10), ("moderate", 1/2),
   ("minor", 3/10), ("slight", 1/5), ("minimal", 1/10)]

/-- Per-line body of `_calculate_severity` (`nodes.py` lines 290-310):
`some v` when the Python loop returns `v` on this (lowered) line, `none`
when it falls through to the next evidence line.  The numeric branch is
wrapped in `try/except`, so an empty or unparsable `severity:` suffix
falls through to the indicator scan. -/
def severity_line? (low : List Char) : Option ℚ :=
  if containsCL "severity:".data low then
    let numeric :=
      match afterFirstCL "severity:".data low with
      | none => none
      | some rest =>
        let severity_text := pyStrip rest
        match severity_text with
        | [] => none
        | c :: _ =>
          if c.isDigit then
            match splitWS severity_text with
            | [] => none
            | tok :: _ =>
              match pyFloat? tok with
              | none => none
              | some v => some (clamp01 (if 1 < v then v / 10 else v))
          else none
    match numeric with
    | some v => some v
    | none => (severity_indicators.find? (fun p => containsCL p.1.data low)).map (·.2)
  else none

/-- Evidence-line loop of `_calculate_severity`: first returning line
wins. -/
def calculate_severity_go : List String → ℚ
  | [] => 1/2
  | line :: rest =>
    match severity_line? (pyLower line.data) with
    | some v => v
    | none => calculate_severity_go rest

/-- `EvidenceCollectorNode._calculate_severity` (`nodes.py` lines
273-312): scans evidence lines for an explicit `severity:` mention,
first numerically (0-10 or 0-1 scale, clamped to `[0,1]`), then through
the indicator vocabulary; defaults to 0.5. -/
def calculate_severity (evidence : List String) : ℚ :=
  calculate_severity_go evidence

/-- The `score_types` list of `_parse_scores` (`nodes.py` line 381). -/
def score_types : List String :=
  ["overall", "personality", "tonality", "dos", dontsApos, "donts"]

/-- `score_type.replace("'", "")` (`nodes.py` line 408). -/
def scoreKey (stype : String) : String :=
  String.mk (stype.data.filter (· ≠ apos))

/-- The five canonical score keys (`required_scores`, line 415). -/
def required_scores : List String :=
  ["overall", "personality", "tonality", "dos", "donts"]

/-- One `score_type` step of the per-line loop of `_parse_scores`
(`nodes.py` lines 392-412): on a match, strip the score-type tokens off
the line, pick the first whitespace token starting with a digit, parse,
scale-normalise, clamp, and assign under the apostrophe-free key.  A
`float` failure aborts the extraction for this score type (`except:
continue`). -/
def parse_scores_type_step (line : List Char) (d : ScoreDict) (stype : String) : ScoreDict :=
  if containsCL (stype ++ " score").data line ∨ containsCL (stype ++ ":").data line then
    let parts := splitWS (pyStrip
      (removeAllCL (stype ++ ":").data (removeAllCL (stype ++ " score").data line)))
    match parts.find? (fun p => match p with | c :: _ => c.isDigit | [] => false) with
    | none => d
    | some p =>
      match pyFloat? p with
      | none => d
      | some v => dictSet d (scoreKey stype) (normalize_score_value v)
  else d

/-- Per-line body of `_parse_scores` (`nodes.py` lines 386-412): the line
is stripped and lowered, then every score type is tried in order (the
inner `break` only ends the token scan, not the score-type loop). -/
def parse_scores_line (d : ScoreDict) (l : List Char) : ScoreDict :=
  let line := pyLower (pyStrip l)
  if line.isEmpty then d
  else score_types.foldl (parse_scores_type_step line) d

/-- The line-scanning phase of `ScoreCalculatorNode._parse_scores`
(`nodes.py` lines 380-412): the scores recovered from the response. -/
def scan_scores (response_text : String) : ScoreDict :=
  (splitChar '\n' response_text.data).foldl parse_scores_line []

/-- The back-fill phase of `_parse_scores` (`nodes.py` lines 414-423):
each missing canonical key is assigned the mean of the values currently
present (0.5 when the dict is still empty). -/
def fill_missing : List String → ScoreDict → ScoreDict
  | [], d => d
  | k :: ks, d =>
    if dictMem k d then fill_missing ks d
    else fill_missing ks (dictSet d k (if d.isEmpty then 1/2 else dictMean d))

/-- `ScoreCalculatorNode._parse_scores` (`nodes.py` lines 378-425). -/
def parse_scores (response_text : String) : ScoreDict :=
  fill_missing required_scores (scan_scores response_text)

end BVAnalysis

namespace BVAnalysis

/-- Enum iteration order of `SuggestionCategory` with the `.value`
strings scanned by the `category:` branch of `_parse_suggestions`
(`nodes.py` lines 552-557). -/
def category_values : List (SuggestionCategory × String) :=
  [(.personality, "personality"), (.tonality, "tonality"), (.dos, "dos"),
   (.donts, "donts"), (.style, "style"), (.general, "general")]

/-- A fresh suggestion (`_parse_suggestions` lines 533-540). -/
def newSuggestion : ContentSuggestion :=
  { original_text := "", suggested_text := "", explanation := "",
    category := .general, priority := 2 }

/-- Flush guard of `_parse_suggestions` (lines 529 and 571): both texts
non-empty. -/
def flushSuggestion (cur : Option ContentSuggestion) : List ContentSuggestion :=
  match cur with
  | some s => if s.original_text ≠ "" ∧ s.suggested_text ≠ "" then [s] else []
  | none => []

/-- The field-update block of `_parse_suggestions` (`nodes.py` lines
543-568), run for every non-empty line while a suggestion is open
(marker lines included — the block is a separate `if current_suggestion:`
after the marker `if`, not an `elif`).  Field labels are substring tests
on the lowered line; the value is everything after the first `:` of the
original line. -/
def updateSuggestion (line : List Char) (s : ContentSuggestion) : ContentSuggestion :=
  let low := pyLower line
  let after := String.mk (pyStrip ((afterFirstCL ":".data line).getD []))
  if containsCL "original:".data low ∨ containsCL "original text:".data low then
    { s with original_text := after }
  else if containsCL "suggested:".data low ∨ containsCL "suggested text:".data low ∨
          containsCL "replacement:".data low then
    { s with suggested_text := after }
  else if containsCL "explanation:".data low ∨ containsCL "reason:".data low then
    { s with explanation := after }
  else if containsCL "category:".data low then
    let category_text := pyLower after.data
    let cat :=
      match category_values.find? (fun p => containsCL p.2.data category_text) with
      | some p => p.1
      | none => s.category
    { s with category := cat }
  else if containsCL "priority:".data low then
    let pt := pyLower after.data
    let p : Int :=
      if containsCL "high".data pt ∨ containsCL "1".data pt then 1
      else if containsCL "medium".data pt ∨ containsCL "2".data pt then 2
      else if containsCL "low".data pt ∨ containsCL "3".data pt then 3
      else s.priority
    { s with priority := p }
  else if s.explanation = "" ∧ s.original_text ≠ "" ∧ s.suggested_text ≠ "" then
    { s with explanation := String.mk line }
  else s

/-- Loop body of `SuggestionGeneratorNode._parse_suggestions` (`nodes.py`
lines 518-568): markers are prefixes, and a suggestion is flushed
(mid-scan and at end of input) only when both `original_text` and
`suggested_text` are non-empty. -/
def parse_suggestions_go :
    List (List Char) → List ContentSuggestion → Option ContentSuggestion →
    List ContentSuggestion
  | [], acc, cur => acc ++ flushSuggestion cur
  | l :: ls, acc, cur =>
    let line := pyStrip l
    if line.isEmpty then parse_suggestions_go ls acc cur
    else
      let low := pyLower line
      if isPrefixCL "suggestion".data low ∨ isPrefixCL "improvement".data low ∨
         isPrefixCL "recommendation".data low then
        parse_suggestions_go ls (acc ++ flushSuggestion cur)
          (some (updateSuggestion line newSuggestion))
      else
        match cur with
        | none => parse_suggestions_go ls acc none
        | some s => parse_suggestions_go ls acc (some (updateSuggestion line s))

/-- `SuggestionGeneratorNode._parse_suggestions` (`nodes.py` lines
513-574); the `issues` argument is accepted and unused, as in the
source. -/
def parse_suggestions (response_text : String) (_issues : List ContentIssue) :
    List ContentSuggestion :=
  parse_suggestions_go (splitChar '\n' response_text.data) [] none

/-! ### The five stage nodes (`nodes.py`) and the orchestration graph
(`agent.py`).  Each node wraps its body in try/except: an exception
(a failing oracle, or the `IndexError` of `_parse_issues`) is recorded as
`state.error` and the state is returned, never re-raised. -/

/-- `ContentAnalyzerNode.__call__` (`nodes.py` lines 37-87). -/
def content_analyzer (oracle : Except String String) (st : AnalysisState) : AnalysisState :=
  match (do
      let resp ← oracle
      parse_issues resp : Except String (List ContentIssue)) with
  | .ok issues =>
    { st with issues := some issues, analysis_stage := "content_analyzed" }
  | .error e => { st with error := some ("Error in content analyzer: " ++ e) }

/-- One issue refinement of `EvidenceCollectorNode.__call__` (`nodes.py`
lines 205-212): issues with non-empty evidence get their position
recomputed by substring search and their severity recomputed from the
evidence. -/
def refineIssue (content : String) (evidence : List (String × List String))
    (i : Nat) (issue : ContentIssue) : ContentIssue :=
  let issue_ev := (dictGet evidence ("issue_" ++ toString (i+1))).getD []
  if issue_ev ≠ [] then
    let s := find_text_position content issue.text
    { issue with start_index := s,
                 end_index := if s ≥ 0 then s + issue.text.length else -1,
                 severity := calculate_severity issue_ev }
  else issue

/-- `EvidenceCollectorNode.__call__` (`nodes.py` lines 158-230). -/
def evidence_collector (oracle : Except String String) (st : AnalysisState) : AnalysisState :=
  if (st.issues.getD []).isEmpty then
    { st with evidence := some [], analysis_stage := "evidence_collected" }
  else
    match oracle with
    | .error e => { st with error := some ("Error in evidence collector: " ++ e) }
    | .ok resp =>
      let issues := st.issues.getD []
      let evidence := extract_evidence resp issues.length st.content
      let updated := issues.enum.map (fun p => refineIssue st.content evidence p.1 p.2)
      { st with evidence := some evidence, issues := some updated,
                analysis_stage := "evidence_collected" }

/-- `ScoreCalculatorNode.__call__` (`nodes.py` lines 321-376). -/
def score_calculator (oracle : Except String String) (st : AnalysisState) : AnalysisState :=
  match oracle with
  | .error e => { st with error := some ("Error in score calculator: " ++ e) }
  | .ok resp =>
    { st with scores := some (parse_scores resp), analysis_stage := "scores_calculated" }

/-- `SuggestionGeneratorNode.__call__` (`nodes.py` lines 434-511): skips
(empty list) when suggestions are disabled or no issues exist; otherwise
parses and, when more than `max_suggestions` were parsed, sorts by
ascending priority (stably) and truncates. -/
def suggestion_generator (oracle : Except String String) (st : AnalysisState) : AnalysisState :=
  if st.options.include_suggestions = false then
    { st with suggestions := some [], analysis_stage := "suggestions_generated" }
  else if (st.issues.getD []).isEmpty then
    { st with suggestions := some [], analysis_stage := "suggestions_generated" }
  else
    match oracle with
    | .error e => { st with error := some ("Error in suggestion generator: " ++ e) }
    | .ok resp =>
      let suggestions := parse_suggestions resp (st.issues.getD [])
      let maxS := st.options.max_suggestions
      let final :=
        if (suggestions.length : Int) > maxS then
          pySliceTake maxS (pySortAscBy (fun s => (s.priority : ℚ)) suggestions)
        else suggestions
      { st with suggestions := some final, analysis_stage := "suggestions_generated" }

/-- The `analysis_result` record built by `AnalysisReportNode.__call__`
(`nodes.py` lines 594-610). -/
def buildAnalysisResult (st : AnalysisState) : AnalysisResult :=
  let scores := st.scores.getD []
  let issues := st.issues.getD []
  let suggestions := st.suggestions.getD []
  { overall_score := (dictGet scores "overall").getD (1/2),
    personality_score := (dictGet scores "personality").getD (1/2),
    tonality_score := (dictGet scores "tonality").getD (1/2),
    dos_alignment := (dictGet scores "dos").getD (1/2),
    donts_alignment := (dictGet scores "donts").getD (1/2),
    highlighted_sections := issues,
    suggestions := suggestions,
    analysis_metadata :=
      { brand_voice_id := st.brand_voice.id, brand_voice_name := st.brand_voice.name,
        content_length := st.content.length, issue_count := issues.length,
        suggestion_count := suggestions.length },
    report := none }

/-- `AnalysisReportNode.__call__` (`nodes.py` lines 583-641): the numeric
result is always built from the state; the narrative report oracle is
consulted only when `options.generate_report` is set, and its raw
response is stored verbatim. -/
def analysis_report (oracle : Except String String) (st : AnalysisState) : AnalysisState :=
  if st.options.generate_report then
    match oracle with
    | .error e => { st with error := some ("Error in analysis report generator: " ++ e) }
    | .ok resp =>
      { st with analysis_result := some { buildAnalysisResult st with report := some resp },
                analysis_stage := "completed" }
  else
    { st with analysis_result := some (buildAnalysisResult st),
              analysis_stage := "completed" }

/-- The compiled LangGraph workflow of `create_brand_voice_analysis_agent`
(`agent.py` lines 28-68): a linear chain
`content_analyzer → evidence_collector → score_calculator →
suggestion_generator → analysis_report → END` with no conditional edge,
so every stage always runs, in this order, regardless of `state.error`.
Each stage receives its own oracle (one model call per stage). -/
def brand_voice_analysis_agent (o1 o2 o3 o4 o5 : Except String String)
    (st : AnalysisState) : AnalysisState :=
  analysis_report o5 (suggestion_generator o4 (score_calculator o3
    (evidence_collector o2 (content_analyzer o1 st))))

/-- The default options dict of `invoke_analysis_agent` (`agent.py` lines
91-98). -/
def default_options : AnalysisOptions :=
  { analysis_depth := "standard", include_suggestions := true,
    highlight_issues := true, max_suggestions := 5, generate_report := true }

/-- The initial state of `invoke_analysis_agent` (`agent.py` lines
104-112). -/
def initial_state (content : String) (bv : BrandVoice) (opts : AnalysisOptions)
    (user tenant : Option String) : AnalysisState :=
  { content := content, brand_voice := bv, options := opts,
    user_id := user.getD "", tenant_id := tenant.getD "",
    analysis_stage := "initialized", issues := none, suggestions := none,
    scores := none, evidence := none, analysis_result := none, error := none }

/-- The dict returned by `invoke_analysis_agent`.  `analysis_result` is
`none` for Python `None`, `some none` for the `{}` default taken when the
final state lacks the key, and `some (some r)` for a real result. -/
structure InvokeResult where
  success : Bool
  error : Option String
  analysis_result : Option (Option AnalysisResult)
deriving DecidableEq, Repr

/-- `invoke_analysis_agent` (`agent.py` lines 71-138).  `graphFailure`
models an exception escaping `agent.ainvoke` itself (graph machinery;
the embedded nodes never raise): `some e` is caught by the outer
`except` (lines 132-138).  Otherwise the final state's `error` is
checked for truthiness (line 119): a non-empty error yields
`success=False` with `analysis_result=None`; otherwise `success=True`
with the state's `analysis_result`. -/
def invoke_analysis_agent (graphFailure : Option String)
    (o1 o2 o3 o4 o5 : Except String String) (content : String) (bv : BrandVoice)
    (options : Option AnalysisOptions) (user tenant : Option String) : InvokeResult :=
  let opts := options.getD default_options
  match graphFailure with
  | some e =>
    { success := false,
      error := some ("Error invoking brand voice analysis agent: " ++ e),
      analysis_result := none }
  | none =>
    let result := brand_voice_analysis_agent o1 o2 o3 o4 o5
      (initial_state content bv opts user tenant)
    match result.error with
    | some e =>
      if e ≠ "" then { success := false, error := some e, analysis_result := none }
      else { success := true, error := none, analysis_result := some result.analysis_result }
    | none =>
      { success := true, error := none, analysis_result := some result.analysis_result }

end BVAnalysis

/-! ## Claim theorems -/

/-- C9 (counterexample).  On the response
`"Issue: too casual\nExplanation: violates formal tonality"` the claim
announces one Issue with `issue_type = TONALITY_MISMATCH`; in fact the
analyzer variant derives the type from the marker line `Issue: too
casual`, which contains no tonality keyword, so the single parsed issue
is `GENERAL`, and the analysis variant raises `IndexError` (the
`Explanation:` line fails the case-sensitive split) and produces no list
at all. -/
theorem C9_counterexample :
    (BVAnalyzer.parse_issues "Issue: too casual\nExplanation: violates formal tonality").map
        BVAnalyzer.Issue.issue_type ≠ [IssueType.tonality_mismatch] ∧
    BVAnalysis.parse_issues "Issue: too casual\nExplanation: violates formal tonality" =
      Except.error "list index out of range" := by
  constructor
  · decide
  · rfl

/-- C9 (amended): parsing the single-issue response yields, in the
analyzer variant, exactly one Issue with `issue_type = GENERAL`, text
`"too casual"` and explanation `"violates formal tonality"`; the
analysis variant raises `IndexError` (recorded by the calling node as a
stage error), producing no issue list. -/
theorem C9_single_issue_response :
    BVAnalyzer.parse_issues "Issue: too casual\nExplanation: violates formal tonality" =
      [{ id := "", start_index := 0, end_index := 0, text := "too casual",
         issue_type := IssueType.general,
         explanation := "violates formal tonality", severity := 1/2 }] ∧
    BVAnalysis.parse_issues "Issue: too casual\nExplanation: violates formal tonality" =
      Except.error "list index out of range" := by
  constructor
  · rfl
  · rfl

/-- C3 (counterexample).  The claim computes severity from `k` = the
number of evidence *lines* containing a strong word.  The code counts
(line, word) *pairs*: the single line `"completely severely off"`
contains two strong words, so `calculate_severity` returns
`0.5 + 2·0.1 = 0.7`, while the claimed formula with `k = 1, m = 0` gives
`0.6`.  The other cited symbol,
`EvidenceCollectorNode._calculate_severity` of the analysis variant, is a
different heuristic altogether (an explicit `severity:`/indicator-table
scan): on `["major problem"]` it returns its default `0.5`, not the
claimed `0.6`. -/
theorem C3_counterexample :
    BVAnalyzer.calculate_severity ["completely severely off"] = 7/10 ∧
    (7/10 : ℚ) ≠ max (1/10) (min (9/10) (1/2 + (1/10) * 1 - (1/20) * 0)) ∧
    BVAnalysis.calculate_severity ["major problem"] = 1/2 ∧
    (1/2 : ℚ) ≠ max (1/10) (min (9/10) (1/2 + (1/10) * 1 - (1/20) * 0)) := by
  refine ⟨by decide, by norm_num, by decide, by norm_num⟩

/-- C3 (amended).  `BVAnalyzer.calculate_severity` returns the clamp to
`[0.1, 0.9]` of `0.5 + 0.1·K − 0.05·M`, where `K` (resp. `M`) is the
total number of (evidence line, strong word) (resp. medium word) pairs
such that the word occurs in the lowered line — each line contributes
once per distinct vocabulary word it contains, not once overall — and in
particular the result always lies in `[0.1, 0.9]`. -/
theorem C3_severity_pair_count_clamped (evidence : List String) :
    BVAnalyzer.calculate_severity evidence =
      max (1/10) (min (9/10)
        (1/2 + (1/10) * (BVAnalyzer.countWordHits BVAnalyzer.strong_words evidence : ℚ)
             - (1/20) * (BVAnalyzer.countWordHits BVAnalyzer.medium_words evidence : ℚ))) ∧
    1/10 ≤ BVAnalyzer.calculate_severity evidence ∧
    BVAnalyzer.calculate_severity evidence ≤ 9/10 := by
  have hform : BVAnalyzer.calculate_severity evidence =
      max (1/10) (min (9/10)
        (1/2 + (1/10) * (BVAnalyzer.countWordHits BVAnalyzer.strong_words evidence : ℚ)
             - (1/20) * (BVAnalyzer.countWordHits BVAnalyzer.medium_words evidence : ℚ))) := by
    unfold BVAnalyzer.calculate_severity
    rcases evidence with _ | ⟨e, es⟩
    · simp [BVAnalyzer.countWordHits]
      norm_num
    · simp [List.isEmpty]
  refine ⟨hform, ?_, ?_⟩
  · rw [hform]
    exact le_max_left _ _
  · rw [hform]
    exact max_le (by norm_num) (min_le_left _ _)

/-- C6 (counterexample).  The claim says an open issue is flushed only
with non-empty text *also* when flushed by a subsequent marker line.  In
the analysis variant the mid-scan flush has no text check: on
`"issue: a\nissue: b"` the first marker's issue (whose `text` is still
empty — `text` is only set by a later `text:` line) is appended when the
second marker arrives, so the output contains an issue with empty text.
In the analyzer variant the end flush is also unchecked: the bare
marker `"Issue:"` emits an issue with empty text. -/
theorem C6_counterexample :
    Except.map (fun l => l.map BVAnalysis.ContentIssue.text)
        (BVAnalysis.parse_issues "issue: a\nissue: b") = Except.ok [""] ∧
    (BVAnalyzer.parse_issues "Issue:").map BVAnalyzer.Issue.text = [""] := by
  exact ⟨rfl, rfl⟩

/-- C7 (counterexample).  The analyzer variant's flush guard tests key
*presence* (`"original_text" in current_suggestion`), which always holds,
so `"Suggestion: improve tone"` yields a suggestion whose
`original_text` and `suggested_text` are both empty — the claim's
"discarded unless both non-empty" fails for `parse_suggestions` of
`brand_voice_analyzer/nodes.py`. -/
theorem C7_counterexample :
    (BVAnalyzer.parse_suggestions "Suggestion: improve tone" []).map
        (fun s => (s.original_text, s.suggested_text)) = [("", "")] := by
  exact rfl

/-- C5 (counterexample).  The analyzer variant's `parse_scores` presets
all five keys to 0.5 and never averages: on `"overall: 0.9"` the
recovered values are `{overall ↦ 0.9}` with mean `0.9`, yet
`personality` remains at its preset `0.5`, not the claimed mean. -/
theorem C5_counterexample :
    dictGet (BVAnalyzer.parse_scores "overall: 0.9") "overall" = some (9/10) ∧
    dictGet (BVAnalyzer.parse_scores "overall: 0.9") "personality" = some (1/2) ∧
    (1/2 : ℚ) ≠ 9/10 := by
  refine ⟨rfl, rfl, by norm_num⟩

/-- C4 (counterexample).  The analyzer variant's `generate_suggestions`
caps only the *issues* fed to the prompt at `max_suggestions`; the parsed
suggestion list is stored uncapped.  With `max_suggestions = 1`, one
issue, and a two-suggestion response, the stored list has 2 > 1
entries. -/
theorem C4_counterexample :
    ((BVAnalyzer.generate_suggestions
        (Except.ok "1. First\nOriginal: aaa\nSuggested: bbb\n2. Second\nOriginal: ccc\nSuggested: ddd")
        { content := "",
          options := { analysis_depth := "standard", include_suggestions := true,
                       highlight_issues := true, max_suggestions := 1,
                       generate_report := true },
          issues := some [{ id := "", start_index := 0, end_index := 0, text := "zzz",
                            issue_type := IssueType.general, explanation := "",
                            severity := 1/2 }],
          suggestions := none, analysis_stage := "initialized",
          error := none }).suggestions.getD []).length = 2 ∧ ¬ ((2 : Int) ≤ 1) := by
  refine ⟨rfl, by decide⟩

/-- The clamp `min(1.0, max(0.0, ·))` always lands in `[0, 1]`. -/
theorem clamp01_mem (x : ℚ) : 0 ≤ clamp01 x ∧ clamp01 x ≤ 1 := by
  unfold clamp01
  exact ⟨le_min zero_le_one (le_max_left 0 x), min_le_left 1 _⟩

/-- C8.  Score-scale normalisation (shared verbatim by both variants'
score parsers): a value in `(1, 10]` is divided by 10, a value in
`(10, 100]` is divided by 100, anything else is left alone, and the
result is clamped to `[0, 1]`; consequently the one-line responses
`overall: 7`, `overall: 70`, `overall: 0.7` all parse to 0.7 and
`overall: 107` clamps to 1.0, in both variants. -/
theorem C8_scale_normalization :
    (∀ x : ℚ, 1 < x → x ≤ 10 → normalize_score_value x = clamp01 (x / 10)) ∧
    (∀ x : ℚ, 10 < x → x ≤ 100 → normalize_score_value x = clamp01 (x / 100)) ∧
    (∀ x : ℚ, 0 ≤ normalize_score_value x ∧ normalize_score_value x ≤ 1) ∧
    dictGet (BVAnalysis.parse_scores "overall: 7") "overall" = some (7/10) ∧
    dictGet (BVAnalysis.parse_scores "overall: 70") "overall" = some (7/10) ∧
    dictGet (BVAnalysis.parse_scores "overall: 0.7") "overall" = some (7/10) ∧
    dictGet (BVAnalysis.parse_scores "overall: 107") "overall" = some 1 ∧
    dictGet (BVAnalyzer.parse_scores "overall: 7") "overall" = some (7/10) ∧
    dictGet (BVAnalyzer.parse_scores "overall: 70") "overall" = some (7/10) ∧
    dictGet (BVAnalyzer.parse_scores "overall: 0.7") "overall" = some (7/10) ∧
    dictGet (BVAnalyzer.parse_scores "overall: 107") "overall" = some 1 := by
  refine ⟨?_, ?_, ?_, rfl, rfl, rfl, rfl, rfl, rfl, rfl, rfl⟩
  · intro x h1 h10
    unfold normalize_score_value
    rw [if_pos ⟨h1, h10⟩]
  · intro x h10 h100
    unfold normalize_score_value
    rw [if_neg (by rintro ⟨-, h⟩; exact absurd h (not_le.mpr h10)), if_pos ⟨h10, h100⟩]
  · intro x
    unfold normalize_score_value
    exact clamp01_mem _

/-- C8 (witness): the normalisation theorem instantiated at 7 and 70. -/
theorem C8_scale_normalization_witness :
    normalize_score_value 7 = clamp01 (7 / 10) ∧
    normalize_score_value 70 = clamp01 (70 / 100) :=
  ⟨C8_scale_normalization.1 7 (by norm_num) (by norm_num),
   C8_scale_normalization.2.1 70 (by norm_num) (by norm_num)⟩

namespace BVAnalysis

theorem flushSuggestion_spec (cur : Option ContentSuggestion) :
    ∀ s ∈ flushSuggestion cur, s.original_text ≠ "" ∧ s.suggested_text ≠ "" := by
  rcases cur with _ | c
  · intro s hs; simp [flushSuggestion] at hs
  · intro t ht
    simp only [flushSuggestion] at ht
    by_cases h : c.original_text ≠ "" ∧ c.suggested_text ≠ ""
    · rw [if_pos h] at ht
      rcases List.mem_singleton.mp ht with rfl
      exact h
    · rw [if_neg h] at ht
      simp at ht

theorem parse_suggestions_go_mem :
    ∀ (ls : List (List Char)) (acc : List ContentSuggestion)
      (cur : Option ContentSuggestion) (s : ContentSuggestion),
      s ∈ parse_suggestions_go ls acc cur →
      s ∈ acc ∨ (s.original_text ≠ "" ∧ s.suggested_text ≠ "") := by
  intro ls
  induction ls with
  | nil =>
    intro acc cur s hs
    rw [parse_suggestions_go] at hs
    rcases List.mem_append.mp hs with h | h
    · exact Or.inl h
    · exact Or.inr (flushSuggestion_spec cur s h)
  | cons l ls ih =>
    intro acc cur s hs
    simp only [parse_suggestions_go] at hs
    split at hs
    · exact ih acc cur s hs
    · split at hs
      · rcases ih _ _ s hs with h | h
        · rcases List.mem_append.mp h with h' | h'
          · exact Or.inl h'
          · exact Or.inr (flushSuggestion_spec _ _ h')
        · exact Or.inr h
      · rcases cur with _ | c
        · exact ih _ _ s hs
        · exact ih _ _ s hs

end BVAnalysis

/-- C7.  Every suggestion in the list returned by
`SuggestionGeneratorNode._parse_suggestions` (the analysis variant) has
non-empty `original_text` and `suggested_text`: both the mid-scan flush
and the end-of-input flush discard a parsed suggestion lacking either
field.  (The analyzer variant's `parse_suggestions` violates this — see
the counterexample — its flush guard only checks key presence.) -/
theorem C7_parse_suggestions_nonempty (response : String)
    (issues : List BVAnalysis.ContentIssue) (s : BVAnalysis.ContentSuggestion)
    (hs : s ∈ BVAnalysis.parse_suggestions response issues) :
    s.original_text ≠ "" ∧ s.suggested_text ≠ "" := by
  rcases BVAnalysis.parse_suggestions_go_mem _ _ _ s hs with h | h
  · simp at h
  · exact h

/-- C7 (witness): a concrete parse whose single suggestion the theorem
certifies. -/
theorem C7_parse_suggestions_nonempty_witness :
    ({ original_text := "aaa", suggested_text := "bbb", explanation := "",
       category := SuggestionCategory.general,
       priority := 2 } : BVAnalysis.ContentSuggestion).original_text ≠ "" ∧
    ({ original_text := "aaa", suggested_text := "bbb", explanation := "",
       category := SuggestionCategory.general,
       priority := 2 } : BVAnalysis.ContentSuggestion).suggested_text ≠ "" :=
  C7_parse_suggestions_nonempty "Suggestion: x\nOriginal: aaa\nSuggested: bbb" []
    { original_text := "aaa", suggested_text := "bbb", explanation := "",
      category := SuggestionCategory.general, priority := 2 }
    (by decide)

namespace BVAnalysis

theorem isIssueMarker_iff (l : List Char) :
    isIssueMarker l = true ↔
      (isPrefixCL "issue:".data (pyLower (pyStrip l)) = true ∨
       isPrefixCL "problem:".data (pyLower (pyStrip l)) = true ∨
       isPrefixCL "mismatch:".data (pyLower (pyStrip l)) = true ∨
       isPrefixCL "violation:".data (pyLower (pyStrip l)) = true) := by
  simp [isIssueMarker, Bool.or_eq_true, or_assoc]

theorem isIssueMarker_of_strip_empty (l : List Char) (h : (pyStrip l).isEmpty = true) :
    isIssueMarker l = false := by
  unfold isIssueMarker
  rw [List.isEmpty_iff.mp h]
  decide

/-- On a marker-free suffix, the only issue the scan can add beyond the
accumulator is the end-of-input flush, which checks for non-empty
text. -/
theorem parse_issues_go_no_marker :
    ∀ (ls : List (List Char)) (acc : List ContentIssue) (cur : Option ContentIssue)
      (out : List ContentIssue),
      (∀ l ∈ ls, isIssueMarker l = false) →
      parse_issues_go ls acc cur = Except.ok out →
      ∀ i ∈ out, i ∈ acc ∨ i.text ≠ "" := by
  intro ls
  induction ls with
  | nil =>
    intro acc cur out _ heq i hi
    simp only [parse_issues_go] at heq
    rcases heq with ⟨⟩
    rcases List.mem_append.mp hi with h | h
    · exact Or.inl h
    · rcases cur with _ | c
      · simp [flushIssue] at h
      · simp only [flushIssue] at h
        by_cases hc : c.text ≠ ""
        · rw [if_pos hc] at h
          rcases List.mem_singleton.mp h with rfl
          exact Or.inr hc
        · rw [if_neg hc] at h
          simp at h
  | cons l ls ih =>
    intro acc cur out hml heq i hi
    have hml' : ∀ l' ∈ ls, isIssueMarker l' = false :=
      fun l' h => hml l' (List.mem_cons_of_mem _ h)
    have hmlh : isIssueMarker l = false := hml l (List.mem_cons_self l ls)
    simp only [parse_issues_go] at heq
    split at heq
    · exact ih acc cur out hml' heq i hi
    · split at heq
      · exact absurd (isIssueMarker_iff l |>.mpr (by tauto)) (by simp [hmlh])
      · split at heq
        · exact ih acc none out hml' heq i hi
        · split at heq
          · exact ih acc _ out hml' heq i hi
          · cases heq

/-- With at most one marker line, no mid-scan flush can happen from a
clean start, so every emitted issue passed the end-flush text check. -/
theorem parse_issues_go_single_marker :
    ∀ (ls : List (List Char)) (out : List ContentIssue),
      (ls.filter isIssueMarker).length ≤ 1 →
      parse_issues_go ls [] none = Except.ok out →
      ∀ i ∈ out, i.text ≠ "" := by
  intro ls
  induction ls with
  | nil =>
    intro out _ heq i hi
    simp only [parse_issues_go] at heq
    rcases heq with ⟨⟩
    simp [flushIssue] at hi
  | cons l ls ih =>
    intro out hcount heq i hi
    simp only [parse_issues_go] at heq
    split at heq
    · refine ih out ?_ heq i hi
      have hm : isIssueMarker l = false := isIssueMarker_of_strip_empty l (by assumption)
      rw [List.filter_cons] at hcount
      simpa [hm] using hcount
    · split at heq
      · have hmark : isIssueMarker l = true := isIssueMarker_iff l |>.mpr (by tauto)
        have hzero : (ls.filter isIssueMarker).length = 0 := by
          rw [List.filter_cons, if_pos hmark, List.length_cons] at hcount
          omega
        have hnone : ∀ l' ∈ ls, isIssueMarker l' = false := by
          intro l' h
          by_contra hc
          have hmem : l' ∈ ls.filter isIssueMarker :=
            List.mem_filter.mpr ⟨h, by simpa using hc⟩
          rw [List.length_eq_zero.mp hzero] at hmem
          simp at hmem
        split at heq
        · rcases parse_issues_go_no_marker ls _ _ out hnone heq i hi with h | h
          · simp at h
          · exact h
        · cases heq
      · have hm : isIssueMarker l = false := by
          by_contra hc
          have := isIssueMarker_iff l |>.mp (by simpa using hc)
          tauto
        refine ih out ?_ heq i hi
        rw [List.filter_cons] at hcount
        simpa [hm] using hcount

end BVAnalysis

/-- C6 (amended).  In `ContentAnalyzerNode._parse_issues` only the
end-of-input flush checks for non-empty text; the flush triggered by a
subsequent marker line appends the open issue unconditionally.
Consequently the claim holds exactly for responses with at most one
marker line: every issue such a parse emits has non-empty text (with two
or more markers an empty-text issue can be emitted — see the
counterexample). -/
theorem C6_single_marker_nonempty_text (response : String)
    (out : List BVAnalysis.ContentIssue)
    (hm : BVAnalysis.markerCount response ≤ 1)
    (heq : BVAnalysis.parse_issues response = Except.ok out) :
    ∀ i ∈ out, i.text ≠ "" :=
  BVAnalysis.parse_issues_go_single_marker _ out hm heq

/-- C6 (witness): a one-marker response whose parsed issue the theorem
certifies. -/
theorem C6_single_marker_nonempty_text_witness :
    ({ start_index := 0, end_index := 0, text := "hello",
       issue_type := IssueType.general, explanation := "",
       severity := 1/2 } : BVAnalysis.ContentIssue).text ≠ "" :=
  C6_single_marker_nonempty_text "Issue: ok\ntext: hello" _ (by decide) rfl
    _ (by decide)

/-! ## Dictionary lemmas -/

theorem dictMem_iff_keys {β : Type} (k : String) (d : List (String × β)) :
    dictMem k d = true ↔ k ∈ dictKeys d := by
  induction d with
  | nil => simp [dictMem, dictKeys]
  | cons p d ih =>
    simp only [dictMem, dictKeys, List.any_cons, List.map_cons, List.mem_cons,
      Bool.or_eq_true, beq_iff_eq] at *
    constructor
    · rintro (h | h)
      · exact Or.inl h.symm
      · exact Or.inr (ih.mp h)
    · rintro (h | h)
      · exact Or.inl h.symm
      · exact Or.inr (ih.mpr h)

theorem dictKeys_map_update {β : Type} (d : List (String × β)) (k : String) (v : β) :
    dictKeys (d.map (fun p => if p.1 == k then (k, v) else p)) = dictKeys d := by
  induction d with
  | nil => rfl
  | cons p d ih =>
    simp only [List.map_cons, dictKeys] at ih ⊢
    by_cases hp : p.1 == k
    · rw [if_pos hp]
      simp only [List.map_cons]
      rw [beq_iff_eq.mp hp]
      exact congrArg _ ih
    · rw [if_neg hp]
      exact congrArg _ ih

theorem dictKeys_dictSet_of_mem {β : Type} (d : List (String × β)) (k : String) (v : β)
    (h : dictMem k d = true) : dictKeys (dictSet d k v) = dictKeys d := by
  unfold dictSet
  rw [if_pos h]
  exact dictKeys_map_update d k v

theorem dictValues_map_update_sub {β : Type} (d : List (String × β)) (k : String) (v w : β)
    (h : w ∈ dictValues (d.map (fun p => if p.1 == k then (k, v) else p))) :
    w = v ∨ w ∈ dictValues d := by
  induction d with
  | nil => simp [dictValues] at h
  | cons p d ih =>
    simp only [List.map_cons, dictValues, List.mem_cons] at h ⊢
    rcases h with h | h
    · by_cases hp : p.1 == k
      · rw [if_pos hp] at h
        exact Or.inl h
      · rw [if_neg hp] at h
        exact Or.inr (Or.inl h)
    · rcases ih h with h' | h'
      · exact Or.inl h'
      · exact Or.inr (Or.inr h')

theorem dictValues_dictSet_sub {β : Type} (d : List (String × β)) (k : String) (v w : β)
    (h : w ∈ dictValues (dictSet d k v)) : w = v ∨ w ∈ dictValues d := by
  unfold dictSet at h
  split at h
  · exact dictValues_map_update_sub d k v w h
  · rw [dictValues, List.map_append] at h
    rcases List.mem_append.mp h with h | h
    · exact Or.inr h
    · simp at h
      exact Or.inl h

theorem dictGet_mem_values {β : Type} (d : List (String × β)) (k : String) (v : β)
    (h : dictGet d k = some v) : v ∈ dictValues d := by
  unfold dictGet at h
  rcases Option.map_eq_some'.mp h with ⟨p, hp, rfl⟩
  exact List.mem_map_of_mem _ (List.mem_of_find?_eq_some hp)

/-- Generic preservation of an invariant along `List.foldl`. -/
theorem foldl_preserve {α β : Type} {P : α → Prop} (f : α → β → α) (l : List β)
    (step : ∀ a b, P a → b ∈ l → P (f a b)) (a₀ : α) (h₀ : P a₀) :
    P (l.foldl f a₀) := by
  induction l generalizing a₀ with
  | nil => exact h₀
  | cons b l ih =>
    exact ih (fun a b' ha hb' => step a b' ha (List.mem_cons_of_mem _ hb'))
      _ (step a₀ b h₀ (List.mem_cons_self b l))

/-- The mean of a non-empty list of values in `[0, 1]` is in `[0, 1]`. -/
theorem mean_mem_unit (l : List ℚ) (hne : l ≠ [])
    (h : ∀ v ∈ l, 0 ≤ v ∧ v ≤ 1) :
    0 ≤ l.sum / (l.length : ℚ) ∧ l.sum / (l.length : ℚ) ≤ 1 := by
  have hlen : 0 < (l.length : ℚ) := by
    have := List.length_pos.mpr hne
    exact_mod_cast this
  constructor
  · exact div_nonneg (List.sum_nonneg (fun v hv => (h v hv).1)) hlen.le
  · rw [div_le_one hlen]
    calc l.sum ≤ (l.length : ℚ) * 1 := by
          rw [mul_one]
          have := List.sum_le_card_nsmul l 1 (fun v hv => (h v hv).2)
          simpa [nsmul_eq_mul] using this
      _ = (l.length : ℚ) := mul_one _

theorem dictMem_dictSet {β : Type} (d : List (String × β)) (k k' : String) (v : β) :
    dictMem k (dictSet d k' v) = true ↔ (dictMem k d = true ∨ k = k') := by
  unfold dictSet
  split
  · rw [dictMem_iff_keys, dictKeys_map_update, ← dictMem_iff_keys]
    constructor
    · exact Or.inl
    · rintro (h | rfl)
      · exact h
      · assumption
  · rw [dictMem, List.any_append]
    simp only [Bool.or_eq_true, dictMem]
    constructor
    · rintro (h | h)
      · exact Or.inl h
      · simp only [List.any_cons, List.any_nil, Bool.or_false, beq_iff_eq] at h
        exact Or.inr h.symm
    · rintro (h | rfl)
      · exact Or.inl h
      · exact Or.inr (by simp)

namespace BVAnalysis

theorem fill_missing_mem (ks : List String) :
    ∀ (d : ScoreDict) (k : String),
      dictMem k (fill_missing ks d) = true ↔ (dictMem k d = true ∨ k ∈ ks) := by
  induction ks with
  | nil => intro d k; simp [fill_missing]
  | cons k' ks ih =>
    intro d k
    unfold fill_missing
    split
    · rw [ih]
      constructor
      · rintro (h | h)
        · exact Or.inl h
        · exact Or.inr (List.mem_cons_of_mem _ h)
      · rintro (h | h)
        · exact Or.inl h
        · rcases List.mem_cons.mp h with rfl | h
          · left; assumption
          · exact Or.inr h
    · rw [ih, dictMem_dictSet]
      constructor
      · rintro ((h | rfl) | h)
        · exact Or.inl h
        · exact Or.inr (List.mem_cons_self _ _)
        · exact Or.inr (List.mem_cons_of_mem _ h)
      · rintro (h | h)
        · exact Or.inl (Or.inl h)
        · rcases List.mem_cons.mp h with rfl | h
          · exact Or.inl (Or.inr rfl)
          · exact Or.inr h

theorem fill_missing_values (ks : List String) :
    ∀ (d : ScoreDict),
      (∀ v ∈ dictValues d, 0 ≤ v ∧ v ≤ 1) →
      ∀ v ∈ dictValues (fill_missing ks d), 0 ≤ v ∧ v ≤ 1 := by
  induction ks with
  | nil => intro d h; exact h
  | cons k' ks ih =>
    intro d h
    unfold fill_missing
    split
    · exact ih d h
    · refine ih _ ?_
      intro v hv
      rcases dictValues_dictSet_sub _ _ _ _ hv with rfl | hv'
      · split
        · norm_num
        · have hne : dictValues d ≠ [] := by
            intro hnil
            have : d = [] := by
              rcases d with _ | ⟨p, d⟩
              · rfl
              · simp [dictValues] at hnil
            simp [this] at *
          exact mean_mem_unit (dictValues d) hne h
      · exact h v hv'

theorem score_types_key_mem :
    ∀ stype ∈ score_types, scoreKey stype ∈ required_scores := by
  decide

theorem normalize_score_value_mem (x : ℚ) :
    0 ≤ normalize_score_value x ∧ normalize_score_value x ≤ 1 := by
  unfold normalize_score_value
  exact clamp01_mem _

theorem parse_scores_type_step_inv (line : List Char) (d : ScoreDict) (stype : String)
    (hst : stype ∈ score_types)
    (hd : (∀ k, dictMem k d = true → k ∈ required_scores) ∧
          (∀ v ∈ dictValues d, 0 ≤ v ∧ v ≤ 1)) :
    (∀ k, dictMem k (parse_scores_type_step line d stype) = true → k ∈ required_scores) ∧
    (∀ v ∈ dictValues (parse_scores_type_step line d stype), 0 ≤ v ∧ v ≤ 1) := by
  suffices h : ∀ x, parse_scores_type_step line d stype = x →
      (∀ k, dictMem k x = true → k ∈ required_scores) ∧
      (∀ v ∈ dictValues x, 0 ≤ v ∧ v ≤ 1) from h _ rfl
  intro x hx
  simp only [parse_scores_type_step] at hx
  split at hx
  · split at hx
    · subst hx; exact hd
    · split at hx
      · subst hx; exact hd
      · subst hx
        constructor
        · intro k hk
          rcases (dictMem_dictSet _ _ _ _).mp hk with h | rfl
          · exact hd.1 k h
          · exact score_types_key_mem stype hst
        · intro v hv
          rcases dictValues_dictSet_sub _ _ _ _ hv with rfl | hv'
          · exact normalize_score_value_mem _
          · exact hd.2 v hv'
  · subst hx; exact hd

theorem parse_scores_line_inv (d : ScoreDict) (l : List Char)
    (hd : (∀ k, dictMem k d = true → k ∈ required_scores) ∧
          (∀ v ∈ dictValues d, 0 ≤ v ∧ v ≤ 1)) :
    (∀ k, dictMem k (parse_scores_line d l) = true → k ∈ required_scores) ∧
    (∀ v ∈ dictValues (parse_scores_line d l), 0 ≤ v ∧ v ≤ 1) := by
  suffices h : ∀ x, parse_scores_line d l = x →
      (∀ k, dictMem k x = true → k ∈ required_scores) ∧
      (∀ v ∈ dictValues x, 0 ≤ v ∧ v ≤ 1) from h _ rfl
  intro x hx
  simp only [parse_scores_line] at hx
  split at hx
  · subst hx; exact hd
  · subst hx
    exact foldl_preserve _ _
      (fun d' stype hd' hst => parse_scores_type_step_inv _ d' stype hst hd') d hd

/-- The scan phase only writes canonical keys, with clamped values. -/
theorem scan_scores_inv (response : String) :
    (∀ k, dictMem k (scan_scores response) = true → k ∈ required_scores) ∧
    (∀ v ∈ dictValues (scan_scores response), 0 ≤ v ∧ v ≤ 1) := by
  unfold scan_scores
  refine @foldl_preserve _ _
    (fun d => (∀ k, dictMem k d = true → k ∈ required_scores) ∧
      (∀ v ∈ dictValues d, 0 ≤ v ∧ v ≤ 1)) _ _ ?_ []
    ⟨by intro k h; simp [dictMem] at h, by intro v hv; simp [dictValues] at hv⟩
  intro d l hd _
  exact parse_scores_line_inv d l hd

end BVAnalysis

namespace BVAnalyzer

theorem assignScore_inv (d : ScoreDict) (key : List Char) (v : ℚ)
    (hkeys : dictKeys d = BVAnalysis.required_scores)
    (hvals : ∀ w ∈ dictValues d, 0 ≤ w ∧ w ≤ 1)
    (hv : 0 ≤ v ∧ v ≤ 1) :
    dictKeys (assignScore d key v) = BVAnalysis.required_scores ∧
    ∀ w ∈ dictValues (assignScore d key v), 0 ≤ w ∧ w ≤ 1 := by
  have hset : ∀ k : String, k ∈ BVAnalysis.required_scores →
      dictKeys (dictSet d k v) = BVAnalysis.required_scores ∧
      ∀ w ∈ dictValues (dictSet d k v), 0 ≤ w ∧ w ≤ 1 := by
    intro k hk
    have hmem : dictMem k d = true := by
      rw [dictMem_iff_keys, hkeys]; exact hk
    refine ⟨by rw [dictKeys_dictSet_of_mem d k v hmem, hkeys], ?_⟩
    intro w hw
    rcases dictValues_dictSet_sub _ _ _ _ hw with rfl | hw'
    · exact hv
    · exact hvals w hw'
  unfold assignScore
  split
  · exact hset "overall" (by decide)
  · split
    · exact hset "personality" (by decide)
    · split
      · exact hset "tonality" (by decide)
      · split
        · exact hset "dos" (by decide)
        · split
          · exact hset "donts" (by decide)
          · exact ⟨hkeys, hvals⟩

/-- One line step of the analyzer's score parser preserves the preset
key set and the value bounds. -/
theorem parse_scores_line_preset_inv (d : ScoreDict) (l : List Char)
    (hd : dictKeys d = BVAnalysis.required_scores ∧
          (∀ v ∈ dictValues d, 0 ≤ v ∧ v ≤ 1)) :
    dictKeys (parse_scores_line d l) = BVAnalysis.required_scores ∧
    (∀ v ∈ dictValues (parse_scores_line d l), 0 ≤ v ∧ v ≤ 1) := by
  suffices h : ∀ x, parse_scores_line d l = x →
      dictKeys x = BVAnalysis.required_scores ∧
      (∀ v ∈ dictValues x, 0 ≤ v ∧ v ≤ 1) from h _ rfl
  intro x hx
  simp only [parse_scores_line] at hx
  split at hx
  · subst hx; exact hd
  · split at hx
    · split at hx
      · subst hx; exact hd
      · split at hx
        · subst hx; exact hd
        · subst hx
          exact assignScore_inv _ _ _ hd.1 hd.2 (BVAnalysis.normalize_score_value_mem _)
    · subst hx; exact hd

/-- The analyzer's score parser starts from the preset five-key dict and
only ever updates those keys with clamped values. -/
theorem parse_scores_inv (response : String) :
    dictKeys (parse_scores response) = BVAnalysis.required_scores ∧
    ∀ v ∈ dictValues (parse_scores response), 0 ≤ v ∧ v ≤ 1 := by
  unfold parse_scores
  refine @foldl_preserve _ _
    (fun d => dictKeys d = BVAnalysis.required_scores ∧
      (∀ v ∈ dictValues d, 0 ≤ v ∧ v ≤ 1)) _ _ ?_ _ ⟨by decide, by decide⟩
  intro d l hd _
  exact parse_scores_line_preset_inv d l hd

end BVAnalyzer

/-- C1.  Both score parsers return a mapping whose key set is exactly the
five canonical keys `overall, personality, tonality, dos, donts`, with
every value in `[0, 1]`: the analysis variant's scan writes only
canonical keys with clamped values and the back-fill adds every missing
canonical key with the mean (or 0.5); the analyzer variant starts from
the preset five-key dict and updates it in place. -/
theorem C1_parse_scores_canonical_keys_unit_interval :
    (∀ response : String,
        (∀ k, dictMem k (BVAnalysis.parse_scores response) = true ↔
           k ∈ BVAnalysis.required_scores) ∧
        (∀ k v, dictGet (BVAnalysis.parse_scores response) k = some v →
           0 ≤ v ∧ v ≤ 1)) ∧
    (∀ response : String,
        dictKeys (BVAnalyzer.parse_scores response) = BVAnalysis.required_scores ∧
        (∀ k v, dictGet (BVAnalyzer.parse_scores response) k = some v →
           0 ≤ v ∧ v ≤ 1)) := by
  constructor
  · intro response
    constructor
    · intro k
      unfold BVAnalysis.parse_scores
      rw [BVAnalysis.fill_missing_mem]
      constructor
      · rintro (h | h)
        · exact (BVAnalysis.scan_scores_inv response).1 k h
        · exact h
      · exact Or.inr
    · intro k v hget
      exact BVAnalysis.fill_missing_values _ _ ((BVAnalysis.scan_scores_inv response).2)
        v (dictGet_mem_values _ _ _ hget)
  · intro response
    refine ⟨(BVAnalyzer.parse_scores_inv response).1, ?_⟩
    intro k v hget
    exact (BVAnalyzer.parse_scores_inv response).2 v (dictGet_mem_values _ _ _ hget)

/-- C1 (witness): the empty response yields the all-0.5 canonical dict in
both variants; the theorem certifies key membership and the bounds of the
parsed `overall` value. -/
theorem C1_parse_scores_canonical_keys_unit_interval_witness :
    (dictMem "overall" (BVAnalysis.parse_scores "") = true ↔
       "overall" ∈ BVAnalysis.required_scores) ∧
    (0 ≤ (1/2 : ℚ) ∧ (1/2 : ℚ) ≤ 1) ∧
    dictKeys (BVAnalyzer.parse_scores "") = BVAnalysis.required_scores :=
  ⟨(C1_parse_scores_canonical_keys_unit_interval.1 "").1 "overall",
   (C1_parse_scores_canonical_keys_unit_interval.1 "").2 "overall" (1/2) (by decide),
   (C1_parse_scores_canonical_keys_unit_interval.2 "").1⟩

theorem pySliceTake_length_le {α : Type} (k : Int) (hk : 0 ≤ k) (l : List α) :
    ((pySliceTake k l).length : Int) ≤ k := by
  unfold pySliceTake
  rw [if_pos hk]
  calc ((l.take k.toNat).length : Int) ≤ (k.toNat : Int) := by
        exact_mod_cast List.length_take_le _ _
    _ = k := Int.toNat_of_nonneg hk

/-- C4 (amended).  Both variants store the empty suggestion list when
suggestions are disabled or no issues exist.  The analysis variant's
`SuggestionGeneratorNode` additionally caps what it stores: either the
stage failed (oracle exception, `suggestions` unchanged) or it stored a
list of at most `options.max_suggestions` items (sorting by priority and
truncating when the parse exceeded the cap).  The analyzer variant caps
only the issues fed to the prompt, not the stored list — see the
counterexample. -/
theorem C4_suggestion_generator_cap (o o' : Except String String)
    (st : BVAnalysis.AnalysisState) (st' : BVAnalyzer.AState)
    (hmax : 0 ≤ st.options.max_suggestions) :
    ((st.options.include_suggestions = false ∨ st.issues = none ∨ st.issues = some []) →
       (BVAnalysis.suggestion_generator o st).suggestions = some []) ∧
    ((BVAnalysis.suggestion_generator o st).suggestions = st.suggestions ∨
     ∃ l, (BVAnalysis.suggestion_generator o st).suggestions = some l ∧
          (l.length : Int) ≤ st.options.max_suggestions) ∧
    ((st'.options.include_suggestions = false ∨ st'.issues = none ∨ st'.issues = some []) →
       (BVAnalyzer.generate_suggestions o' st').suggestions = some []) := by
  refine ⟨?_, ?_, ?_⟩
  · rintro (h | h | h)
    · simp [BVAnalysis.suggestion_generator, h]
    · simp [BVAnalysis.suggestion_generator, h]
    · by_cases hinc : st.options.include_suggestions = false
      · simp [BVAnalysis.suggestion_generator, hinc]
      · simp [BVAnalysis.suggestion_generator, hinc, h]
  · by_cases hinc : st.options.include_suggestions = false
    · right
      refine ⟨[], by simp [BVAnalysis.suggestion_generator, hinc], by simpa using hmax⟩
    · by_cases hiss : (st.issues.getD []).isEmpty
      · right
        refine ⟨[], by simp [BVAnalysis.suggestion_generator, hinc, hiss], by simpa using hmax⟩
      · rcases o with e | resp
        · left
          simp [BVAnalysis.suggestion_generator, hinc, hiss]
        · right
          set sugg := BVAnalysis.parse_suggestions resp (st.issues.getD []) with hsugg
          by_cases hlen : (sugg.length : Int) > st.options.max_suggestions
          · refine ⟨pySliceTake st.options.max_suggestions
              (pySortAscBy (fun s => (s.priority : ℚ)) sugg), ?_, ?_⟩
            · simp [BVAnalysis.suggestion_generator, hinc, hiss, ← hsugg, hlen]
            · exact pySliceTake_length_le _ hmax _
          · refine ⟨sugg, ?_, by omega⟩
            simp [BVAnalysis.suggestion_generator, hinc, hiss, ← hsugg, hlen]
  · rintro (h | h | h)
    · simp [BVAnalyzer.generate_suggestions, h]
    · simp [BVAnalyzer.generate_suggestions, h]
    · by_cases hiss : (st'.issues.getD []).isEmpty
      · simp [BVAnalyzer.generate_suggestions, hiss]
      · simp [h] at hiss

/-- A trivial brand voice used by concrete instantiations. -/
def trivialBrandVoice : BVAnalysis.BrandVoice :=
  { id := "", name := "", personality := "", tonality := "", dos := "", donts := "" }

/-- The default options record (all five keys at their route defaults). -/
def defaultOptionsRecord : AnalysisOptions :=
  { analysis_depth := "standard", include_suggestions := true,
    highlight_issues := true, max_suggestions := 5, generate_report := true }

/-- A fresh analysis state with no issues, used by concrete
instantiations. -/
def c4AnalysisState : BVAnalysis.AnalysisState :=
  { content := "", brand_voice := trivialBrandVoice, options := defaultOptionsRecord,
    user_id := "", tenant_id := "", analysis_stage := "initialized",
    issues := none, suggestions := none, scores := none, evidence := none,
    analysis_result := none, error := none }

/-- A fresh analyzer state with no issues. -/
def c4AnalyzerState : BVAnalyzer.AState :=
  { content := "", options := defaultOptionsRecord, issues := none,
    suggestions := none, analysis_stage := "initialized", error := none }

/-- C4 (witness): with default options and no issues, the analysis stage
stores the empty list. -/
theorem C4_suggestion_generator_cap_witness :
    (BVAnalysis.suggestion_generator (Except.ok "") c4AnalysisState).suggestions = some [] :=
  (C4_suggestion_generator_cap (Except.ok "") (Except.ok "") c4AnalysisState
    c4AnalyzerState (by decide)).1 (Or.inr (Or.inl rfl))

theorem dictMem_append {β : Type} (k : String) (d₁ d₂ : List (String × β)) :
    dictMem k (d₁ ++ d₂) = (dictMem k d₁ || dictMem k d₂) :=
  List.any_append

theorem dictGet_append_of_mem {β : Type} (d₁ d₂ : List (String × β)) (k : String)
    (h : dictMem k d₁ = true) : dictGet (d₁ ++ d₂) k = dictGet d₁ k := by
  induction d₁ with
  | nil => simp [dictMem] at h
  | cons p d ih =>
    by_cases hp : p.1 == k
    · simp [dictGet, List.find?, hp]
    · have hp' : (p.1 == k) = false := by simpa using hp
      simp only [dictMem, List.any_cons, hp', Bool.false_or] at h
      simp only [List.cons_append, dictGet, List.find?, hp']
      exact ih h

theorem dictGet_dictSet_not_mem {β : Type} (d : List (String × β)) (k : String) (v : β)
    (h : dictMem k d = false) : dictGet (dictSet d k v) k = some v := by
  unfold dictSet
  rw [if_neg (by simp [h])]
  induction d with
  | nil => simp [dictGet, List.find?]
  | cons p d ih =>
    simp only [dictMem, List.any_cons, Bool.or_eq_false_iff] at h
    simp only [List.cons_append, dictGet, List.find?, h.1]
    exact ih h.2

namespace BVAnalysis

theorem fill_missing_get_of_mem (ks : List String) :
    ∀ (d : ScoreDict) (k : String), dictMem k d = true →
      dictGet (fill_missing ks d) k = dictGet d k := by
  induction ks with
  | nil => intro d k _; rfl
  | cons k' ks ih =>
    intro d k hk
    unfold fill_missing
    split
    · exact ih d k hk
    · rw [ih _ k ((dictMem_dictSet _ _ _ _).mpr (Or.inl hk))]
      unfold dictSet
      rw [if_neg (by simp_all)]
      exact dictGet_append_of_mem d _ k hk

/-- The value every fill step inserts: 0.5 on an empty dict, else the
running mean. -/
theorem dictMean_append_const (d0 ex : ScoreDict) (M : ℚ)
    (hM : M = if d0.isEmpty then 1/2 else dictMean d0)
    (hex : ∀ p ∈ ex, p.2 = M) (hne : (d0 ++ ex) ≠ []) :
    dictMean (d0 ++ ex) = M := by
  have hexsum : (dictValues ex).sum = ((dictValues ex).length : ℚ) * M := by
    have : ∀ x ∈ dictValues ex, x = M := by
      intro x hx
      rcases List.mem_map.mp hx with ⟨p, hp, rfl⟩
      exact hex p hp
    rw [List.sum_eq_card_nsmul (dictValues ex) M this]
    simp [nsmul_eq_mul]
  rcases eq_or_ne d0 [] with rfl | hd0
  · have hM' : M = 1/2 := by simpa using hM
    have hexne : ex ≠ [] := by simpa using hne
    have hlen : ((dictValues ex).length : ℚ) ≠ 0 := by
      have : ex.length ≠ 0 := fun h => hexne (List.length_eq_zero.mp h)
      simp [dictValues, this]
    unfold dictMean
    simp only [List.nil_append] at *
    rw [hexsum]
    field_simp
  · have hM' : M = dictMean d0 := by
      rw [hM, if_neg (by simpa using hd0)]
    have hd0len : ((dictValues d0).length : ℚ) ≠ 0 := by
      have : d0.length ≠ 0 := fun h => hd0 (List.length_eq_zero.mp h)
      simp [dictValues, this]
    have hd0sum : (dictValues d0).sum = ((dictValues d0).length : ℚ) * M := by
      rw [hM']
      unfold dictMean
      field_simp
    unfold dictMean
    rw [dictValues, List.map_append, List.sum_append, List.length_append,
      ← dictValues, ← dictValues, hd0sum, hexsum]
    have hlen0 : 0 < (dictValues d0).length := by
      rcases Nat.eq_zero_or_pos (dictValues d0).length with h | h
      · exact absurd (by exact_mod_cast congrArg (fun n : Nat => (n : ℚ)) h) hd0len
      · exact h
    have hpos : (0 : ℚ) < ((dictValues d0).length : ℚ) + ((dictValues ex).length : ℚ) := by
      have h1 : (0 : ℚ) < ((dictValues d0).length : ℚ) := by exact_mod_cast hlen0
      have h2 : (0 : ℚ) ≤ ((dictValues ex).length : ℚ) := by positivity
      linarith
    push_cast
    rw [div_eq_iff (ne_of_gt hpos)]
    ring

theorem fill_missing_get_missing :
    ∀ (ks : List String) (d0 ex : ScoreDict) (M : ℚ),
      (M = if d0.isEmpty then 1/2 else dictMean d0) →
      (∀ p ∈ ex, p.2 = M) →
      ∀ k, k ∈ ks → dictMem k (d0 ++ ex) = false →
      dictGet (fill_missing ks (d0 ++ ex)) k = some M := by
  intro ks
  induction ks with
  | nil => intro d0 ex M _ _ k hk; simp at hk
  | cons k' ks ih =>
    intro d0 ex M hM hex k hk hmem
    unfold fill_missing
    split
    · rename_i hmem'
      have hne : k ≠ k' := by
        rintro rfl
        rw [hmem'] at hmem
        cases hmem
      rcases List.mem_cons.mp hk with rfl | hk'
      · exact absurd rfl hne
      · exact ih d0 ex M hM hex k hk' hmem
    · rename_i hmem'
      have hval : (if (d0 ++ ex).isEmpty then (1 : ℚ)/2 else dictMean (d0 ++ ex)) = M := by
        rcases eq_or_ne (d0 ++ ex) [] with hnil | hne
        · have : d0 = [] := by
            rcases List.append_eq_nil.mp hnil with ⟨h1, _⟩
            exact h1
          rw [if_pos (by simp [hnil])]
          rw [hM, if_pos (by simp [this])]
        · rw [if_neg (by simpa using hne)]
          exact dictMean_append_const d0 ex M hM hex hne
      have hset : dictSet (d0 ++ ex) k'
          (if (d0 ++ ex).isEmpty then (1 : ℚ)/2 else dictMean (d0 ++ ex)) =
          d0 ++ (ex ++ [(k', M)]) := by
        unfold dictSet
        rw [if_neg (by simp_all), hval, List.append_assoc]
      rw [hset]
      by_cases hkk' : k = k'
      · subst hkk'
        have hmemnew : dictMem k (d0 ++ (ex ++ [(k, M)])) = true := by
          rw [← List.append_assoc, dictMem_append]
          simp [dictMem]
        rw [fill_missing_get_of_mem ks _ k hmemnew, ← List.append_assoc]
        calc dictGet ((d0 ++ ex) ++ [(k, M)]) k
            = dictGet (dictSet (d0 ++ ex) k M) k := by
              unfold dictSet
              rw [if_neg (by simp [hmem])]
          _ = some M := dictGet_dictSet_not_mem _ _ _ hmem
      · have hk'' : k ∈ ks := by
          rcases List.mem_cons.mp hk with h | h
          · exact absurd h hkk'
          · exact h
        refine ih d0 (ex ++ [(k', M)]) M hM ?_ k hk'' ?_
        · intro p hp
          rcases List.mem_append.mp hp with h | h
          · exact hex p h
          · rcases List.mem_singleton.mp h with rfl
            rfl
        · rw [← List.append_assoc, dictMem_append, hmem]
          have hsym : ¬ k' = k := fun h => hkk' h.symm
          simp [dictMem, hsym]

end BVAnalysis

/-- C5 (amended).  In the analysis variant's
`ScoreCalculatorNode._parse_scores`, every canonical key that the line
scan did not recover is filled with the arithmetic mean of the recovered
values (0.5 when nothing was recovered); the sequential running-mean fill
of the source coincides with the mean of the originally recovered values
because appending the mean of a list preserves its mean.  (The analyzer
variant's `parse_scores` instead presets every key to 0.5 and never
averages — see the counterexample.) -/
theorem C5_missing_scores_filled_with_mean (response : String) (k : String)
    (hk : k ∈ BVAnalysis.required_scores)
    (hmiss : dictMem k (BVAnalysis.scan_scores response) = false) :
    dictGet (BVAnalysis.parse_scores response) k =
      some (if (BVAnalysis.scan_scores response).isEmpty then 1/2
            else dictMean (BVAnalysis.scan_scores response)) := by
  have h := BVAnalysis.fill_missing_get_missing BVAnalysis.required_scores
    (BVAnalysis.scan_scores response) []
    (if (BVAnalysis.scan_scores response).isEmpty then 1/2
     else dictMean (BVAnalysis.scan_scores response))
    rfl (by simp) k hk (by simpa using hmiss)
  simpa [BVAnalysis.parse_scores] using h

/-- C5 (witness): with only `personality` recovered (0.8), the missing
`overall` key is filled with the mean of the recovered values, 0.8. -/
theorem C5_missing_scores_filled_with_mean_witness :
    dictGet (BVAnalysis.parse_scores "personality: 0.8") "overall" =
      some (if (BVAnalysis.scan_scores "personality: 0.8").isEmpty then 1/2
            else dictMean (BVAnalysis.scan_scores "personality: 0.8")) :=
  C5_missing_scores_filled_with_mean "personality: 0.8" "overall"
    (by decide) (by decide)

namespace BVAnalysis

theorem evidence_collector_ok_error (r : String) (st : AnalysisState) :
    (evidence_collector (Except.ok r) st).error = st.error := by
  unfold evidence_collector
  split <;> rfl

theorem score_calculator_ok_error (r : String) (st : AnalysisState) :
    (score_calculator (Except.ok r) st).error = st.error := rfl

theorem suggestion_generator_ok_error (r : String) (st : AnalysisState) :
    (suggestion_generator (Except.ok r) st).error = st.error := by
  unfold suggestion_generator
  split
  · rfl
  · split <;> rfl

theorem analysis_report_ok_error (r : String) (st : AnalysisState) :
    (analysis_report (Except.ok r) st).error = st.error := by
  unfold analysis_report
  split <;> rfl

theorem analysis_report_ok_stage (r : String) (st : AnalysisState) :
    (analysis_report (Except.ok r) st).analysis_stage = "completed" := by
  unfold analysis_report
  split <;> rfl

end BVAnalysis

/-- C2.  The compiled analysis graph is the fixed linear chain of the
five stages with no conditional edge: a stage that failed still hands its
state to the next stage.  A stage whose body raises (modelled by a
failing oracle) records `Error in <stage-name>: <message>` in
`state.error` and returns the state unchanged otherwise, rather than
raising; with the remaining oracles succeeding, the downstream stages all
run — the final state reaches `analysis_stage = "completed"` while still
carrying the stage-1 error — and with every oracle succeeding the
pipeline always completes. -/
theorem C2_pipeline_no_early_abort (st : BVAnalysis.AnalysisState)
    (e r1 r2 r3 r4 r5 : String) :
    BVAnalysis.brand_voice_analysis_agent (Except.error e) (Except.ok r2)
        (Except.ok r3) (Except.ok r4) (Except.ok r5) st =
      BVAnalysis.analysis_report (Except.ok r5)
        (BVAnalysis.suggestion_generator (Except.ok r4)
          (BVAnalysis.score_calculator (Except.ok r3)
            (BVAnalysis.evidence_collector (Except.ok r2)
              (BVAnalysis.content_analyzer (Except.error e) st)))) ∧
    BVAnalysis.content_analyzer (Except.error e) st =
      { st with error := some ("Error in content analyzer: " ++ e) } ∧
    BVAnalysis.score_calculator (Except.error e) st =
      { st with error := some ("Error in score calculator: " ++ e) } ∧
    (BVAnalysis.brand_voice_analysis_agent (Except.error e) (Except.ok r2)
        (Except.ok r3) (Except.ok r4) (Except.ok r5) st).analysis_stage = "completed" ∧
    (BVAnalysis.brand_voice_analysis_agent (Except.error e) (Except.ok r2)
        (Except.ok r3) (Except.ok r4) (Except.ok r5) st).error =
      some ("Error in content analyzer: " ++ e) ∧
    (BVAnalysis.brand_voice_analysis_agent (Except.ok r1) (Except.ok r2)
        (Except.ok r3) (Except.ok r4) (Except.ok r5) st).analysis_stage = "completed" := by
  refine ⟨rfl, rfl, rfl, ?_, ?_, ?_⟩
  · exact BVAnalysis.analysis_report_ok_stage r5 _
  · rw [show BVAnalysis.brand_voice_analysis_agent (Except.error e) (Except.ok r2)
        (Except.ok r3) (Except.ok r4) (Except.ok r5) st =
      BVAnalysis.analysis_report (Except.ok r5)
        (BVAnalysis.suggestion_generator (Except.ok r4)
          (BVAnalysis.score_calculator (Except.ok r3)
            (BVAnalysis.evidence_collector (Except.ok r2)
              (BVAnalysis.content_analyzer (Except.error e) st)))) from rfl]
    rw [BVAnalysis.analysis_report_ok_error, BVAnalysis.suggestion_generator_ok_error,
      BVAnalysis.score_calculator_ok_error, BVAnalysis.evidence_collector_ok_error]
    rfl
  · exact BVAnalysis.analysis_report_ok_stage r5 _

/-- C10.  `invoke_analysis_agent` checks the final pipeline state's
`error` for truthiness: whenever it carries a non-empty error the call
returns `success = False` with `analysis_result = None`, discarding
whatever `analysis_result` the report stage may have stored; it returns
`success = True` together with the state's `analysis_result` exactly when
no non-empty error is set and no exception escaped the agent invocation
(`graphFailure = none`). -/
theorem C10_invoke_success_error (gf : Option String)
    (o1 o2 o3 o4 o5 : Except String String) (content : String)
    (bv : BVAnalysis.BrandVoice) (options : Option AnalysisOptions)
    (user tenant : Option String) :
    (∀ e, gf = none →
       (BVAnalysis.brand_voice_analysis_agent o1 o2 o3 o4 o5
         (BVAnalysis.initial_state content bv (options.getD BVAnalysis.default_options)
           user tenant)).error = some e → e ≠ "" →
       BVAnalysis.invoke_analysis_agent gf o1 o2 o3 o4 o5 content bv options user tenant =
         { success := false, error := some e, analysis_result := none }) ∧
    ((BVAnalysis.invoke_analysis_agent gf o1 o2 o3 o4 o5 content bv options
        user tenant).success = true ↔
      (gf = none ∧ ∀ e,
        (BVAnalysis.brand_voice_analysis_agent o1 o2 o3 o4 o5
          (BVAnalysis.initial_state content bv (options.getD BVAnalysis.default_options)
            user tenant)).error = some e → e = "")) ∧
    ((BVAnalysis.invoke_analysis_agent gf o1 o2 o3 o4 o5 content bv options
        user tenant).success = true →
      (BVAnalysis.invoke_analysis_agent gf o1 o2 o3 o4 o5 content bv options
          user tenant).analysis_result =
        some (BVAnalysis.brand_voice_analysis_agent o1 o2 o3 o4 o5
          (BVAnalysis.initial_state content bv (options.getD BVAnalysis.default_options)
            user tenant)).analysis_result) := by
  set r := BVAnalysis.brand_voice_analysis_agent o1 o2 o3 o4 o5
    (BVAnalysis.initial_state content bv (options.getD BVAnalysis.default_options)
      user tenant) with hr
  rcases gf with _ | g
  · rcases herr : r.error with _ | e'
    · refine ⟨?_, ?_, ?_⟩
      · intro e _ he
        cases he
      · simp [BVAnalysis.invoke_analysis_agent, ← hr, herr]
      · intro _
        simp [BVAnalysis.invoke_analysis_agent, ← hr, herr]
    · by_cases hne : e' ≠ ""
      · refine ⟨?_, ?_, ?_⟩
        · intro e _ he _
          cases he
          simp [BVAnalysis.invoke_analysis_agent, ← hr, herr, hne]
        · constructor
          · intro hsucc
            exfalso
            rw [show (BVAnalysis.invoke_analysis_agent none o1 o2 o3 o4 o5 content bv
                options user tenant).success = false by
              simp [BVAnalysis.invoke_analysis_agent, ← hr, herr, hne]] at hsucc
            cases hsucc
          · rintro ⟨-, hall⟩
            exact absurd (hall e' rfl) hne
        · intro hsucc
          exfalso
          rw [show (BVAnalysis.invoke_analysis_agent none o1 o2 o3 o4 o5 content bv
              options user tenant).success = false by
            simp [BVAnalysis.invoke_analysis_agent, ← hr, herr, hne]] at hsucc
          cases hsucc
      · push_neg at hne
        subst hne
        refine ⟨?_, ?_, ?_⟩
        · intro e _ he hne'
          cases he
          exact absurd rfl hne'
        · constructor
          · intro _
            exact ⟨rfl, fun e he => by cases he; rfl⟩
          · intro _
            simp [BVAnalysis.invoke_analysis_agent, ← hr, herr]
        · intro _
          simp [BVAnalysis.invoke_analysis_agent, ← hr, herr]
  · refine ⟨?_, ?_, ?_⟩
    · intro e hgf
      cases hgf
    · simp [BVAnalysis.invoke_analysis_agent]
    · intro hsucc
      exfalso
      rw [show (BVAnalysis.invoke_analysis_agent (some g) o1 o2 o3 o4 o5 content bv
          options user tenant).success = false from rfl] at hsucc
      cases hsucc

/-- C10 (witness): a pipeline whose first stage fails yields a non-empty
error, so the entry point reports failure with `analysis_result = None`. -/
theorem C10_invoke_success_error_witness :
    BVAnalysis.invoke_analysis_agent none (Except.error "boom") (Except.ok "")
        (Except.ok "") (Except.ok "") (Except.ok "") "" trivialBrandVoice none
        none none =
      { success := false, error := some "Error in content analyzer: boom",
        analysis_result := none } :=
  (C10_invoke_success_error none (Except.error "boom") (Except.ok "") (Except.ok "")
    (Except.ok "") (Except.ok "") "" trivialBrandVoice none none none).1
    "Error in content analyzer: boom" rfl (by decide) (by decide)
